import Mathlib

/-!
# edge-lvi-adapter: command router, session check and vendor client

A shallow embedding of `src/router/from-fimp.go`, `src/router/cmd_setpoint.go`
and `src/lviapi/client.go`.

Go strings are embedded as Lean `String`s (sequences of characters); the
patterns the router searches for are ASCII, so the character view and Go's
byte view agree on every valid UTF-8 string.
-/

namespace LviAdapter

/-! ## Go library: `strings.Replace` with `n = 1` -/

/-- Go `strings.Replace(s, old, new, 1)` on character sequences: the leftmost
occurrence of `old` in `s` is replaced by `new`; `s` is returned unchanged
when `old` does not occur. -/
def replaceFirst (old new : List Char) : List Char → List Char
  | [] => if old.isEmpty then new else []
  | c :: cs =>
    if old.isPrefixOf (c :: cs) then new ++ (c :: cs).drop old.length
    else c :: replaceFirst old new cs

/-- Go `strings.Replace(s, old, new, 1)`. -/
def stringsReplaceOnce (s old new : String) : String :=
  ⟨replaceFirst old.data new.data s.data⟩

/-! ## Address normalisation (`routeFimpMessage`, lines 68-72 and 130-132) -/

/-- The value of the local `addr` of `routeFimpMessage` once the service
switch has been entered: `"_0"` is removed once, and for the `thermostat` and
`sensor_temp` services `"l"` is removed once. -/
def normalizeAddr (service serviceAddress : String) : String :=
  let addr := stringsReplaceOnce serviceAddress "_0" ""
  if service = "thermostat" then stringsReplaceOnce addr "l" ""
  else if service = "sensor_temp" then stringsReplaceOnce addr "l" ""
  else addr

/-- The substring test `strings.Contains(s, sub)`. -/
def containsStr (s sub : String) : Prop := sub.data <:+: s.data


/-! ## Go library: `strconv.ParseFloat`, `math.Ceil`, `int(...)`, `strconv.Itoa`

`ParseFloat(s, 64)` is embedded by its documented contract: the accepted
language is the one read by `special` and `readFloat`, and the result is the
binary64 value nearest to the exact value of the literal, ties to even, with a
range error on overflow. Binary64 values are kept exact, as `m · 2^e`. -/

/-- An IEEE-754 binary64 value; `finite neg m e` is `(-1)^neg · m · 2^e`. -/
inductive Float64
  | finite (neg : Bool) (m : Nat) (e : Int)
  | inf (neg : Bool)
  | nan
deriving DecidableEq, Repr

/-- The `Err` field of a `*strconv.NumError`. -/
inductive NumError
  | ErrSyntax
  | ErrRange
deriving DecidableEq, Repr

/-- Go `lower(c)`: `c | ('x' - 'X')`, on the character code. -/
def lower (c : Char) : Nat := c.toNat ||| 0x20

/-- Whether `c` is one of `'0'..'9'`. -/
def isDigit (c : Char) : Bool := decide (48 ≤ c.toNat ∧ c.toNat ≤ 57)

/-- Whether `lower(c)` is one of `'a'..'f'`. -/
def isHexLetter (c : Char) : Bool := decide (97 ≤ lower c ∧ lower c ≤ 102)

/-- Go `commonPrefixLenIgnoreCase(s, prefix)`; `prefix` is lower case. -/
def commonPrefixLenIgnoreCase : List Char → List Char → Nat
  | c :: cs, p :: ps =>
    let c1 := if 65 ≤ c.toNat ∧ c.toNat ≤ 90 then c.toNat + 32 else c.toNat
    if c1 ≠ p.toNat then 0 else commonPrefixLenIgnoreCase cs ps + 1
  | _, _ => 0

/-- The `inf` arm of `special`, applied to `s` after an optional sign:
the value and the number of characters consumed. -/
def specialInf (neg : Bool) (nsign : Nat) (s : List Char) : Option (Float64 × Nat) :=
  let n := commonPrefixLenIgnoreCase s "infinity".data
  let n := if 3 < n ∧ n < 8 then 3 else n
  if n = 3 ∨ n = 8 then some (Float64.inf neg, nsign + n) else none

/-- Go `special(s)`: the literals `inf`, `infinity` (optionally signed) and
`nan`, case-insensitively, with the number of characters consumed. -/
def special : List Char → Option (Float64 × Nat)
  | [] => none
  | c :: cs =>
    if c = '+' then specialInf false 1 cs
    else if c = '-' then specialInf true 1 cs
    else if c = 'i' ∨ c = 'I' then specialInf false 0 (c :: cs)
    else if c = 'n' ∨ c = 'N' then
      if commonPrefixLenIgnoreCase (c :: cs) "nan".data = 3 then some (Float64.nan, 3) else none
    else none

/-- The loop of `underscoreOK`; `saw` is `'^'`, `'0'`, `'_'` or `'!'`. -/
def underscoreLoop (hex : Bool) : List Char → Char → Bool
  | [], saw => saw ≠ '_'
  | c :: cs, saw =>
    if isDigit c ∨ (hex ∧ isHexLetter c) then underscoreLoop hex cs '0'
    else if c = '_' then
      if saw ≠ '0' then false else underscoreLoop hex cs '_'
    else if saw = '_' then false
    else underscoreLoop hex cs '!'

/-- Go `underscoreOK(s)`: underscores only between digits or between a base
prefix and a digit. -/
def underscoreOK (s : List Char) : Bool :=
  let s := match s with
    | c :: cs => if c = '-' ∨ c = '+' then cs else c :: cs
    | [] => []
  match s with
  | c0 :: c1 :: cs =>
    if c0 = '0' ∧ (lower c1 = 98 ∨ lower c1 = 111 ∨ lower c1 = 120) then
      underscoreLoop (decide (lower c1 = 120)) cs '0'
    else underscoreLoop false s '^'
  | _ => underscoreLoop false s '^'

/-- The locals of the mantissa loop of `readFloat`. The mantissa keeps every
digit, so that it carries the exact value of the literal. -/
structure Scan where
  mantissa : Nat := 0
  nd : Nat := 0
  dp : Int := 0
  sawdot : Bool := false
  sawdigits : Bool := false
  underscores : Bool := false
deriving DecidableEq, Repr

/-- The mantissa loop of `readFloat`: the locals at loop exit and the
unread rest of the input. -/
def scanMantissa (hex : Bool) : List Char → Scan → Scan × List Char
  | [], st => (st, [])
  | c :: cs, st =>
    if c = '_' then scanMantissa hex cs { st with underscores := true }
    else if c = '.' then
      if st.sawdot then (st, c :: cs)
      else scanMantissa hex cs { st with sawdot := true, dp := st.nd }
    else if isDigit c then
      if c = '0' ∧ st.nd = 0 then
        scanMantissa hex cs { st with sawdigits := true, dp := st.dp - 1 }
      else
        scanMantissa hex cs { st with
          sawdigits := true, nd := st.nd + 1,
          mantissa := st.mantissa * (if hex then 16 else 10) + (c.toNat - 48) }
    else if hex ∧ isHexLetter c then
      scanMantissa hex cs { st with
        sawdigits := true, nd := st.nd + 1,
        mantissa := st.mantissa * 16 + (lower c - 97 + 10) }
    else (st, c :: cs)

/-- The digit loop of the exponent of `readFloat`: the exponent read (it stops
growing at 10000), whether an underscore was seen, and the unread rest. -/
def scanExponent : List Char → Nat → Bool → Nat × Bool × List Char
  | [], e, u => (e, u, [])
  | c :: cs, e, u =>
    if c = '_' then scanExponent cs e true
    else if isDigit c then
      scanExponent cs (if e < 10000 then e * 10 + (c.toNat - 48) else e) u
    else (e, u, c :: cs)

/-- What `readFloat` reads: the literal denotes `(-1)^neg · mantissa · 10^exp`,
or `(-1)^neg · mantissa · 2^exp` when `hex`. -/
structure Literal where
  neg : Bool
  hex : Bool
  mantissa : Nat
  exp : Int
deriving DecidableEq, Repr

/-- Go `readFloat(s)`: the literal read and the unread rest of `s`, or `none`
where `readFloat` returns `ok = false`. -/
def readFloat (s : List Char) : Option (Literal × List Char) :=
  match s with
  | [] => none
  | c :: cs =>
    let neg := decide (c = '-')
    let s1 := if c = '+' ∨ c = '-' then cs else c :: cs
    let hex := match s1 with
      | c0 :: c1 :: _ :: _ => decide (c0 = '0' ∧ lower c1 = 120)
      | _ => false
    let s2 := if hex then s1.drop 2 else s1
    let (st, s3) := scanMantissa hex s2 {}
    if ¬ st.sawdigits then none
    else
      let dp : Int := if st.sawdot then st.dp else st.nd
      let dp := if hex then dp * 4 else dp
      let ndMant : Int := if hex then st.nd * 4 else st.nd
      let expChar : Nat := if hex then 112 else 101
      let finish (dp : Int) (underscores : Bool) (rest : List Char) : Option (Literal × List Char) :=
        let exp : Int := if st.mantissa ≠ 0 then dp - ndMant else 0
        if underscores ∧ ¬ underscoreOK (s.take (s.length - rest.length)) then none
        else some ({ neg := neg, hex := hex, mantissa := st.mantissa, exp := exp }, rest)
      match s3 with
      | c3 :: s4 =>
        if lower c3 = expChar then
          match s4 with
          | [] => none
          | c4 :: s5 =>
            let esign : Int := if c4 = '-' then -1 else 1
            let s6 := if c4 = '+' ∨ c4 = '-' then s5 else c4 :: s5
            match s6 with
            | [] => none
            | c6 :: _ =>
              if ¬ isDigit c6 then none
              else
                let (e, u, rest) := scanExponent s6 0 st.underscores
                finish (dp + e * esign) u rest
        else if hex then none
        else finish dp st.underscores s3
      | [] => if hex then none else finish dp st.underscores []

/-- Round `num / den` to the nearest natural number, ties to even. -/
def roundHalfEven (num den : Nat) : Nat :=
  let q := num / den
  let r := num % den
  if 2 * r < den then q
  else if den < 2 * r then q + 1
  else if q % 2 = 0 then q else q + 1

/-- Whether `2^k ≤ num / den`. -/
def geTwoPow (num den : Nat) (k : Int) : Bool :=
  if 0 ≤ k then decide (den * 2 ^ k.toNat ≤ num) else decide (den ≤ num * 2 ^ (-k).toNat)

/-- Halve `n` until it is below 2, at most `fuel` times, counting the
halvings. -/
def log2Aux : Nat → Nat → Nat
  | 0, _ => 0
  | fuel + 1, n => if n < 2 then 0 else log2Aux fuel (n / 2) + 1

/-- The binary logarithm `⌊log₂ n⌋` of `n > 0`. -/
def log2 (n : Nat) : Nat := log2Aux n n

/-- The binary64 value nearest to `(-1)^neg · num / den` (`den > 0`), ties to
even, and whether it overflowed: 53 bits of precision, least exponent
`2^-1074`, overflow from `2^1024` on. -/
def roundFloat64 (neg : Bool) (num den : Nat) : Float64 × Bool :=
  if num = 0 then (Float64.finite neg 0 0, false)
  else
    let l0 : Int := (log2 num : Int) - (log2 den : Int)
    let l : Int := if geTwoPow num den l0 then l0 else l0 - 1
    let e : Int := max (l - 52) (-1074)
    let m : Nat :=
      if 0 ≤ e then roundHalfEven num (den * 2 ^ e.toNat)
      else roundHalfEven (num * 2 ^ (-e).toNat) den
    if 971 < e ∨ (e = 971 ∧ m = 2 ^ 53) then (Float64.inf neg, true)
    else (Float64.finite neg m e, false)

/-- The exact value of a literal as a fraction `(num, den)`. -/
def Literal.fraction (l : Literal) : Nat × Nat :=
  let b : Nat := if l.hex then 2 else 10
  if 0 ≤ l.exp then (l.mantissa * b ^ l.exp.toNat, 1) else (l.mantissa, b ^ (-l.exp).toNat)

/-- The ceiling of `(-1)^neg · num / den`, the smallest integer greater than
or equal to it. -/
def ceilFraction (neg : Bool) (num den : Nat) : Int :=
  if neg then -((num / den : Nat) : Int) else (((num + den - 1) / den : Nat) : Int)

/-- The ceiling of the exact value of a literal. -/
def Literal.ceil (l : Literal) : Int :=
  ceilFraction l.neg l.fraction.1 l.fraction.2

/-- Go `strconv.ParseFloat(s, 64)`: the value and the error (`none` for
`err == nil`). -/
def ParseFloat (s : String) : Float64 × Option NumError :=
  match special s.data with
  | some (f, n) => if n = s.data.length then (f, none) else (Float64.finite false 0 0, some NumError.ErrSyntax)
  | none =>
    match readFloat s.data with
    | none => (Float64.finite false 0 0, some NumError.ErrSyntax)
    | some (l, rest) =>
      if rest ≠ [] then (Float64.finite false 0 0, some NumError.ErrSyntax)
      else
        let (f, ovf) := roundFloat64 l.neg l.fraction.1 l.fraction.2
        (f, if ovf then some NumError.ErrRange else none)

/-- Go `math.Ceil` of the finite value `(-1)^neg · m · 2^e`, as an integer
(`-0` becomes `0`). -/
def ceilFinite (neg : Bool) (m : Nat) (e : Int) : Int :=
  if 0 ≤ e then
    if neg then -((m * 2 ^ e.toNat : Nat) : Int) else ((m * 2 ^ e.toNat : Nat) : Int)
  else
    let d : Nat := 2 ^ (-e).toNat
    if neg then -((m / d : Nat) : Int) else (((m + d - 1) / d : Nat) : Int)

/-- Whether `c` is a value of Go's `int`, `intBits` wide (32 or 64). -/
def inIntRange (intBits : Nat) (c : Int) : Prop :=
  -(2 ^ (intBits - 1) : Int) ≤ c ∧ c < (2 ^ (intBits - 1) : Int)

instance (intBits : Nat) (c : Int) : Decidable (inIntRange intBits c) :=
  inferInstanceAs (Decidable (_ ∧ _))

/-- Go `int(math.Ceil(f))`. Where `int` cannot represent the value (also for
NaN and the infinities) the language leaves the result to the
implementation: it is `outOfRange f`. -/
def intCeil (intBits : Nat) (outOfRange : Float64 → Int) (f : Float64) : Int :=
  match f with
  | Float64.finite neg m e =>
    if inIntRange intBits (ceilFinite neg m e) then ceilFinite neg m e else outOfRange f
  | _ => outOfRange f

/-- Go `strconv.Itoa`. -/
def Itoa (i : Int) : String :=
  if i < 0 then "-" ++ Nat.repr i.natAbs else Nat.repr i.natAbs

/-! ## Data model of `lviapi/client.go` -/

/-- The struct `Device`. -/
structure Device where
  id : String := ""
  device_id : String := ""
  nom_appareil : String := ""
  num_zonestring : String := ""
  id_appareil : String := ""
  current_temp : String := ""
  consigne_confortstring : String := ""
  consigne_hg : String := ""
  consigne_eco : String := ""
  consigne_boost : String := ""
  consigne_manuel : String := ""
  min_set_point : String := ""
  max_set_point : String := ""
  date_start_boost : String := ""
  time_boost : String := ""
  nv_mode : String := ""
  temperature_air : String := ""
  temperature_sol : String := ""
  power_status : String := ""
  pourcent_light : String := ""
  status_com : String := ""
  recep_status_global : String := ""
  gv_mode : String := ""
  puissance_app : String := ""
  smarthome_id : String := ""
  bundle_id : String := ""
  date_update : String := ""
  heating_up : String := ""
  heat_cool : String := ""
  fan_speed : String := ""
  available : String := ""
  fan_status : String := ""
deriving DecidableEq, Repr

/-- The struct `Room`. -/
structure Room where
  zone_id : String := ""
  name : String := ""
  num_zone : String := ""
  label_zone_type : String := ""
  picto_zone_type : String := ""
  zone_img_id : String := ""
  address_position : String := ""
  Devices : List Device := []
deriving DecidableEq, Repr

/-- The struct `Home`. -/
structure Home where
  smarthome_id : String := ""
  mac_address : String := ""
  label : String := ""
  general_mode : String := ""
  holiday_mode : String := ""
  sync_flag : String := ""
  Rooms : List Room := []
deriving DecidableEq, Repr

/-- The anonymous struct `Config.Data`. -/
structure ConfigData where
  AuthorizationCode : String := ""
  AccessToken : String := ""
  RefreshToken : String := ""
  ExpireTime : Int := 0
  RefreshExpireTime : Int := 0
deriving DecidableEq, Repr

/-- The struct `Config`; `{}` is the Go zero value `Config{}`. -/
structure Config where
  ErrorCode : Int := 0
  Message : String := ""
  StatusCode : Int := 0
  Success : Bool := false
  Password : String := ""
  Username : String := ""
  SmartHomeId : String := ""
  Data : ConfigData := {}
deriving DecidableEq, Repr

/-- The anonymous struct `Client.Data`. -/
structure ClientData where
  Homes : List Home := []
  Rooms : List Room := []
  Devices : List Device := []
deriving DecidableEq, Repr

/-- The struct `Client`; `{}` is the Go zero value `Client{}`. -/
structure Client where
  Data : ClientData := {}
deriving DecidableEq, Repr

/-! ## HTTP round trips

A round trip `http.DefaultClient.Do(req)` is given by its outcome. A response
body is given by what `json.NewDecoder(resp.Body).Decode(holder)` does with it:
the holder afterwards and whether the decoder returned `nil`. Building the
request (`http.NewRequest`) is taken to succeed, except in `TempControl`, which
returns on its error. -/

/-- The outcome of `http.DefaultClient.Do(req)` for a holder of type `H`. -/
inductive HttpResult (H : Type)
  | transportError
  | response (StatusCode : Int) (decode : H → H × Bool)

/-- The errors of `lviapi/client.go`. -/
inductive ApiError
  | transport
  | badStatus (StatusCode : Int)
  | decode
  | newRequest
  | errorCode (ErrorCode : Int)
deriving DecidableEq, Repr

/-- Go `processHTTPResponse(resp, err, holder)`: the holder afterwards and the
error returned. -/
def processHTTPResponse {H : Type} (r : HttpResult H) (holder : H) : H × Option ApiError :=
  match r with
  | HttpResult.transportError => (holder, some ApiError.transport)
  | HttpResult.response status decode =>
    if status ≠ 200 then (holder, some (ApiError.badStatus status))
    else
      let (h, ok) := decode holder
      if ok then (h, none) else (h, some ApiError.decode)

/-- The error `err` of `resp, err := http.DefaultClient.Do(req)`. -/
def doError {H : Type} (r : HttpResult H) : Option ApiError :=
  match r with
  | HttpResult.transportError => some ApiError.transport
  | HttpResult.response _ _ => none

/-- The vendor API as seen by one run: the outcome of every round trip. The
listing calls of one `GetAllDevices` are numbered from 0 in call order. -/
structure Vendor where
  refresh : (refreshToken : String) → HttpResult Config
  homeList : (accessToken : String) → HttpResult Client
  roomList : (call : Nat) → (accessToken homeID : String) → HttpResult Client
  deviceList : (call : Nat) → (accessToken roomID : String) → HttpResult Client
  deviceControl : (accessToken deviceId newTemp : String) → HttpResult Config
  newRequestFails : (url : String) → Bool

/-- The values returned by `Config.RefreshToken`. -/
structure RefreshResult where
  accessToken : String
  refreshToken : String
  expireTime : Int
  refreshExpireTime : Int
  err : Option ApiError
deriving DecidableEq, Repr

/-- Go `(config *Config).RefreshToken(refreshToken)`: the receiver afterwards
and the values returned. Both return statements read `config.Data`; the error
returned on the failure path is the one of the round trip. -/
def Config.RefreshToken (v : Vendor) (config : Config) (refreshToken : String) :
    Config × RefreshResult :=
  let r := v.refresh refreshToken
  let (config1, perr) := processHTTPResponse r config
  if perr ≠ none then
    (config1, ⟨config1.Data.AccessToken, config1.Data.RefreshToken, config1.Data.ExpireTime,
      config1.Data.RefreshExpireTime, doError r⟩)
  else
    (config1, ⟨config1.Data.AccessToken, config1.Data.RefreshToken, config1.Data.ExpireTime,
      config1.Data.RefreshExpireTime, none⟩)

/-- The constant `deviceControlURL`. -/
def deviceControlURL : String := "https://e3.lvi.eu/api/v0.1/human/" ++ "uds/deviceControlForOpenApi"

/-- Go `(cf *Config).TempControl(accessToken, deviceId, newTemp)`: the receiver
afterwards, the error returned, and whether the round trip was made. -/
def Config.TempControl (v : Vendor) (cf : Config) (accessToken deviceId newTemp : String) :
    Config × Option ApiError × Bool :=
  let url := deviceControlURL ++ "?deviceId=" ++ deviceId ++ "&holdTemp=" ++ newTemp ++
    "&operation=1&status=1"
  if v.newRequestFails url then (cf, some ApiError.newRequest, false)
  else
    let r := v.deviceControl accessToken deviceId newTemp
    let (cf1, _) := processHTTPResponse r cf
    if doError r ≠ none then (cf1, doError r, true)
    else if cf1.ErrorCode ≠ 0 then (cf1, some (ApiError.errorCode cf1.ErrorCode), true)
    else (cf1, none, true)

/-- Go `(c *Client).GetHomeList(accessToken)`: the receiver afterwards, which
is also the `*Client` returned; the error returned is always `nil`. -/
def Client.GetHomeList (v : Vendor) (c : Client) (accessToken : String) : Client :=
  (processHTTPResponse (v.homeList accessToken) c).1

/-- Go `(c *Client).GetRoomList(accessToken, homeID)`, as the `call`-th room
listing: the receiver afterwards, which is also the `*Client` returned; the
error returned is always `nil`. -/
def Client.GetRoomList (v : Vendor) (c : Client) (call : Nat) (accessToken homeID : String) :
    Client :=
  (processHTTPResponse (v.roomList call accessToken homeID) c).1

/-- Go `(c *Client).GetDeviceList(accessToken, roomID)`, as the `call`-th
device listing: the receiver afterwards, which is also the `*Client`
returned; the error returned is always `nil`. -/
def Client.GetDeviceList (v : Vendor) (c : Client) (call : Nat) (accessToken roomID : String) :
    Client :=
  (processHTTPResponse (v.deviceList call accessToken roomID) c).1

/-- The locals of `GetAllDevices`: the receiver `c` (to which `homes`, `rooms`
and `devices` all point), the lists collected so far, and the number of
listing calls made. -/
structure Listing where
  c : Client
  roomCalls : Nat := 0
  deviceCalls : Nat := 0
  allDevices : List Device := []
  allRooms : List Room := []
  allHomes : List Home := []
deriving DecidableEq, Repr

/-- The loop `for room := range rooms.Data.Rooms` of `GetAllDevices`, from index
`room` for `n` more rounds (the length is read once, at loop entry). `none` is
the index-out-of-range panic of `rooms.Data.Rooms[room]`. -/
def roomLoop (v : Vendor) (accessToken : String) : (room n : Nat) → Listing → Option Listing
  | _, 0, a => some a
  | room, n + 1, a =>
    match a.c.Data.Rooms[room]? with
    | none => none
    | some r =>
      let c1 := Client.GetDeviceList v a.c a.deviceCalls accessToken r.zone_id
      roomLoop v accessToken (room + 1) n
        { a with
          c := c1, deviceCalls := a.deviceCalls + 1,
          allRooms := a.allRooms ++ [r],
          allDevices := a.allDevices ++ c1.Data.Devices }

/-- The loop `for home := range homes.Data.Homes` of `GetAllDevices`, from index
`home` for `n` more rounds. `none` is an index-out-of-range panic. -/
def homeLoop (v : Vendor) (accessToken : String) : (home n : Nat) → Listing → Option Listing
  | _, 0, a => some a
  | home, n + 1, a =>
    match a.c.Data.Homes[home]? with
    | none => none
    | some h =>
      let c1 := Client.GetRoomList v a.c a.roomCalls accessToken h.smarthome_id
      match roomLoop v accessToken 0 c1.Data.Rooms.length
          { a with c := c1, roomCalls := a.roomCalls + 1, allHomes := a.allHomes ++ [h] } with
      | none => none
      | some a1 => homeLoop v accessToken (home + 1) n a1

/-- Go `(c *Client).GetAllDevices(accessToken)`: the locals at the return
statement, which returns `allDevices, allRooms, allHomes, nil`; `none` is a
panic. -/
def Client.GetAllDevices (v : Vendor) (c : Client) (accessToken : String) : Option Listing :=
  let c1 := Client.GetHomeList v c accessToken
  homeLoop v accessToken 0 c1.Data.Homes.length { c := c1 }

/-! ## Router state and messages (`router/from-fimp.go`)

Packages `model` and `fimpgo` are not among the sources. Their types are
embedded with the fields the router uses; their functions and constants are
fields of `Env`. -/

/-- Modelled from the spec: the session of §3, the struct behind
`fc.configs.Auth` (package `model` is not among the sources). -/
structure Auth where
  AuthorizationCode : String := ""
  AccessToken : String := ""
  RefreshToken : String := ""
  ExpireTime : Int := 0
  RefreshExpireTime : Int := 0
deriving DecidableEq, Repr

/-- Modelled from the spec: the struct `model.Configs` (package `model` is not
among the sources), with the fields the router reads or writes. -/
structure Configs where
  Username : String := ""
  Password : String := ""
  AccessKey : String := ""
  SecretToken : String := ""
  Auth : Auth := {}
  DeviceCollection : List Device := []
  RoomCollection : List Room := []
  HomeCollection : List Home := []
  IndependentDeviceCollection : List Device := []
  Param1 : String := ""
  Param2 : String := ""
  LogLevel : String := ""
deriving DecidableEq, Repr

/-- Modelled from the spec: the lifecycle state behind `fc.appLifecycle`
(package `model` is not among the sources): the three states its setters
assign. -/
structure Lifecycle where
  ConfigState : String := ""
  AppState : String := ""
  AuthState : String := ""
deriving DecidableEq, Repr

/-- The value of an inbound `fimpgo.FimpMessage`, by what its getters return:
`GetStringValue` succeeds on `string`, `GetStrMapValue` on `strMap`, and
`GetObjectValue(&conf)` on `object (some conf)`. -/
inductive Value
  | null
  | string (s : String)
  | strMap (m : List (String × String))
  | object (conf : Option Configs)
deriving DecidableEq, Repr

/-- The inbound `fimpgo.FimpMessage` (`newMsg.Payload`). -/
structure FimpMessage where
  Service : String := ""
  /-- The field `Type`. -/
  Typ : String := ""
  Value : Value := Value.null
  Properties : List (String × String) := []
  ResponseToTopic : String := ""
deriving DecidableEq, Repr

/-- The inbound `fimpgo.Message`: `Addr.ServiceAddress` and `Payload`. -/
structure Message where
  ServiceAddress : String := ""
  Payload : FimpMessage := {}
deriving DecidableEq, Repr

/-- Go map lookup `m[k]` on a `map[string]string`: `""` for a missing key
(and for the nil map). -/
def mapGet (m : List (String × String)) (k : String) : String :=
  (m.lookup k).getD ""

/-- Go `GetStrMapValue()`: the map (nil on error) and whether `err != nil`. -/
def FimpMessage.GetStrMapValue (p : FimpMessage) : List (String × String) × Bool :=
  match p.Value with
  | Value.strMap m => (m, false)
  | _ => ([], true)

/-- Go `GetStringValue()`: the string (`""` on error) and whether `err != nil`. -/
def FimpMessage.GetStringValue (p : FimpMessage) : String × Bool :=
  match p.Value with
  | Value.string s => (s, false)
  | _ => ("", true)

/-- The struct `model.AuthStatus`. -/
structure AuthStatus where
  Status : String := ""
  ErrorText : String := ""
  ErrorCode : String := ""
deriving DecidableEq, Repr

/-- The struct `model.ButtonActionResponse`. -/
structure ButtonActionResponse where
  Operation : String := ""
  OperationStatus : String := ""
  Next : String := ""
  ErrorCode : String := ""
  ErrorText : String := ""
deriving DecidableEq, Repr

/-- The struct `model.ConfigReport`. -/
structure ConfigReport where
  OpStatus : String := ""
  AppState : Lifecycle := {}
deriving DecidableEq, Repr

/-- The manifest of `model.NewManifest()`: what `LoadFromFile` read, and the
two fields the router assigns. -/
structure Manifest where
  file : String := ""
  AppState : Option Lifecycle := none
  ConfigState : Option Configs := none
deriving DecidableEq, Repr

/-- The `fimpgo.VType...` constants the router uses. -/
inductive VType
  | VTypeString
  | VTypeStrMap
  | VTypeFloat
  | VTypeObject
deriving DecidableEq, Repr

/-- The value of an outbound message. -/
inductive OutValue
  | string (s : String)
  | strMap (m : List (String × String))
  | float (currentTemp : String)
  | authStatus (status : AuthStatus)
  | devices (deviceCollection : List Device)
  | manifest (manifest : Manifest)
  | states (states : Lifecycle)
  | configs (configs : Configs)
  | configReport (report : ConfigReport)
  | buttonAction (val : ButtonActionResponse)
  | inclusionReport (inclReport : String)
deriving DecidableEq, Repr

/-- The message built by `fimpgo.NewMessage(msgType, service, valueType, value,
props, tags, requestMessage)`; the router never passes tags. -/
structure OutMessage where
  /-- The field `Type`. -/
  Typ : String
  Service : String
  ValueType : VType
  Value : OutValue
  Props : List (String × String) := []
  requestMessage : Option FimpMessage := none
deriving DecidableEq, Repr

/-- The `fimpgo.ResourceType...` constants the router uses. -/
inductive ResourceType
  | ResourceTypeDevice
  | ResourceTypeAdapter
deriving DecidableEq, Repr

/-- The `fimpgo.Address` literals of the router; `MsgType` is always
`fimpgo.MsgTypeEvt`. -/
structure Address where
  ResourceType : ResourceType
  ResourceName : String
  ResourceAddress : String
  ServiceName : String := ""
  ServiceAddress : String := ""
deriving DecidableEq, Repr

/-- What a run does to the outside, in order. -/
inductive Effect
  | RefreshToken (refreshToken : String)
  | NewClient (accessKey secretToken password username : String)
  | GetAllDevices (accessToken : String)
  | TempControl (accessToken deviceId newTemp : String)
  | RespondToRequest (requestMsg : FimpMessage) (msg : OutMessage) (ok : Bool)
  | Publish (adr : Address) (msg : OutMessage)
  | SaveToFile (configs : Configs)
  | SetLevel (level : String)
  | PublishEvent (event src : String)
deriving DecidableEq, Repr

/-- The values returned by the `config.NewClient(...)` call of the router, in
the order the router assigns them. -/
structure LoginResult where
  authorizationCode : String := ""
  accessToken : String := ""
  refreshToken : String := ""
  expireTime : Int := 0
  refreshExpireTime : Int := 0
deriving DecidableEq, Repr

/-- The values returned by the `client.GetAllDevices(...)` call of the router
(the error is never read). -/
structure AllDevices where
  allDevices : List Device := []
  allRooms : List Room := []
  allHomes : List Home := []
  allIndependentDevices : List Device := []
deriving DecidableEq, Repr

/-- Everything outside the router that one run of it depends on: the constants
and functions of packages `model` and `fimpgo` (not among the sources), the
clock, the vendor API and the bus. -/
structure Env where
  /-- The constant `model.ServiceName`. -/
  ServiceName : String
  /-- The constant `model.AuthStateAuthenticated`. -/
  AuthStateAuthenticated : String
  /-- The constant `model.AuthStateNotAuthenticated`. -/
  AuthStateNotAuthenticated : String
  /-- The constant `model.ConfigStateNotConfigured`. -/
  ConfigStateNotConfigured : String
  /-- The constant `model.AppStateNotConfigured`. -/
  AppStateNotConfigured : String
  /-- The constant `model.EventConfigured`. -/
  EventConfigured : String
  /-- The value of `time.Now().UnixNano() / 1000000`. -/
  millis : Int
  /-- The vendor API behind `lviapi/client.go`. -/
  vendor : Vendor
  /-- The login `config.NewClient(accessKey, secretToken, password, username)`. -/
  NewClient : (accessKey secretToken password username : String) → LoginResult
  /-- The listing `client.GetAllDevices(accessToken)`; `none` is a panic. -/
  GetAllDevices : (accessToken : String) → Option AllDevices
  /-- The lookup `fc.configs.FindDeviceFromDeviceID(id)`: the index returned
  and whether `err != nil`. -/
  FindDeviceFromDeviceID : Configs → String → Int × Bool
  /-- The read `reflect.ValueOf(device).FieldByName("CurrentTemp").Interface()`;
  `none` is its panic. -/
  CurrentTemp : Device → Option String
  /-- The rendering `fmt.Sprintf("%.2f", currentTemp)`. -/
  Sprintf2f : String → String
  /-- The report `ns.SendInclusionReport(nodeID, deviceCollection)`; `none` is
  a panic. -/
  SendInclusionReport : Int → List Device → Option String
  /-- Whether `fc.mqt.RespondToRequest(requestMsg, msg)` returns `nil`. -/
  RespondToRequest : FimpMessage → OutMessage → Bool
  /-- The file read by `manifest.LoadFromFile(...)`; `none` is an error. -/
  LoadFromFile : Option String
  /-- Whether `log.ParseLevel(level)` returns no error. -/
  ParseLevel : String → Bool
  /-- The lifecycle after `fc.appLifecycle.PublishEvent(event, src, nil)`. -/
  PublishEvent : Lifecycle → (event src : String) → Lifecycle
  /-- The width of Go's `int`. -/
  intBits : Nat
  /-- The result of `int(f)` where `int` cannot represent `f`. -/
  intOutOfRange : Float64 → Int

/-- The state the router owns: `fc.configs` and `fc.appLifecycle`. -/
structure RouterState where
  configs : Configs := {}
  appLifecycle : Lifecycle := {}
deriving DecidableEq, Repr

/-- A run of a handler: the state afterwards, what it did, and whether a
panic ended it (otherwise it returned). -/
structure Run where
  state : RouterState
  trace : List Effect := []
  panicked : Bool := false
deriving DecidableEq, Repr

/-- Go slice indexing `s[i]` with an `int` index; `none` is the
index-out-of-range panic. -/
def sliceIndex {α : Type} (s : List α) (i : Int) : Option α :=
  if 0 ≤ i then s[i.toNat]? else none

/-- The publish policy of the adapter handlers: `RespondToRequest`, and on its
error `Publish` to `adr`. -/
def respondOrPublish (env : Env) (requestMsg : FimpMessage) (adr : Address) (msg : OutMessage) :
    List Effect :=
  if env.RespondToRequest requestMsg msg then [Effect.RespondToRequest requestMsg msg true]
  else [Effect.RespondToRequest requestMsg msg false, Effect.Publish adr msg]

/-! ## `routeFimpMessage` -/

/-- Lines 57-65 of `routeFimpMessage`, on the local `config` (`mill.Config{}`
at entry): the session afterwards, `config` afterwards, and the calls made.
The router assigns the first four values `RefreshToken` returns. -/
def sessionCheck (env : Env) (auth : Auth) (config : Config) : Auth × Config × List Effect :=
  if auth.ExpireTime ≠ 0 then
    if env.millis > auth.ExpireTime ∧ env.millis < auth.RefreshExpireTime then
      let (config1, r) := Config.RefreshToken env.vendor config auth.RefreshToken
      ({ auth with
          AccessToken := r.accessToken, RefreshToken := r.refreshToken,
          ExpireTime := r.expireTime, RefreshExpireTime := r.refreshExpireTime },
        config1, [Effect.RefreshToken auth.RefreshToken])
    else (auth, config, [])
  else (auth, config, [])

/-- The `thermostat` arm of the service switch (lines 70-128); `addr` is the
normalised address. -/
def routeThermostat (env : Env) (st : RouterState) (newMsg : Message) (addr : String) : Run :=
  let adr : Address :=
    { ResourceType := ResourceType.ResourceTypeDevice, ResourceName := env.ServiceName,
      ResourceAddress := "1", ServiceName := "thermostat", ServiceAddress := addr }
  if newMsg.Payload.Typ = "cmd.setpoint.set" then { state := st }
  else if newMsg.Payload.Typ = "cmd.setpoint.get_report" then
    let (deviceIndex, _) := env.FindDeviceFromDeviceID st.configs addr
    match sliceIndex st.configs.DeviceCollection deviceIndex with
    | none => { state := st, panicked := true }
    | some device =>
      match env.CurrentTemp device with
      | none => { state := st, panicked := true }
      | some t =>
        let currentTemp := env.Sprintf2f t
        let val := [("type", "heat"), ("temp", currentTemp), ("unit", "C")]
        let msg : OutMessage :=
          { Typ := "evt.setpoint.report", Service := "thermostat", ValueType := VType.VTypeStrMap,
            Value := OutValue.strMap val, requestMessage := some newMsg.Payload }
        { state := st, trace := [Effect.Publish adr msg] }
  else if newMsg.Payload.Typ = "cmd.mode.set" then { state := st }
  else if newMsg.Payload.Typ = "cmd.mode.get_report" then
    let msg : OutMessage :=
      { Typ := "evt.mode.report", Service := "thermostat", ValueType := VType.VTypeString,
        Value := OutValue.string "heat", requestMessage := some newMsg.Payload }
    { state := st, trace := [Effect.Publish adr msg] }
  else { state := st }

/-- The `sensor_temp` arm of the service switch (lines 130-152). -/
def routeSensorTemp (env : Env) (st : RouterState) (newMsg : Message) (addr : String) : Run :=
  if newMsg.Payload.Typ = "cmd.sensor.get_report" then
    let (deviceIndex, _) := env.FindDeviceFromDeviceID st.configs addr
    match sliceIndex st.configs.DeviceCollection deviceIndex with
    | none => { state := st, panicked := true }
    | some device =>
      match env.CurrentTemp device with
      | none => { state := st, panicked := true }
      | some currentTemp =>
        let adr : Address :=
          { ResourceType := ResourceType.ResourceTypeDevice, ResourceName := env.ServiceName,
            ResourceAddress := "1", ServiceName := "sensor_temp", ServiceAddress := addr }
        let msg : OutMessage :=
          { Typ := "evt.sensor.report", Service := "sensor_temp", ValueType := VType.VTypeFloat,
            Value := OutValue.float currentTemp, Props := [("unit", "C")],
            requestMessage := some newMsg.Payload }
        { state := st, trace := [Effect.Publish adr msg] }
  else { state := st }

/-- The case `cmd.auth.login` (lines 160-199). -/
def cmdAuthLogin (env : Env) (st : RouterState) (newMsg : Message) (adr : Address) : Run :=
  let configs : Configs :=
    { st.configs with
      Username := mapGet newMsg.Payload.Properties "username",
      Password := mapGet newMsg.Payload.Properties "password",
      AccessKey := mapGet newMsg.Payload.Properties "access_key",
      SecretToken := mapGet newMsg.Payload.Properties "secret_token" }
  let status : AuthStatus := { Status := "", ErrorText := "", ErrorCode := "" }
  let (configs, status, trace) : Configs × AuthStatus × List Effect :=
    if configs.Username ≠ "" ∧ configs.Password ≠ "" ∧ configs.AccessKey ≠ "" ∧
        configs.SecretToken ≠ "" then
      let r := env.NewClient configs.AccessKey configs.SecretToken configs.Password
        configs.Username
      ({ configs with
          Auth :=
            { AuthorizationCode := r.authorizationCode, AccessToken := r.accessToken,
              RefreshToken := r.refreshToken, ExpireTime := r.expireTime,
              RefreshExpireTime := r.refreshExpireTime } },
        status,
        [Effect.NewClient configs.AccessKey configs.SecretToken configs.Password
          configs.Username])
    else
      (configs,
        { status with
          Status := "ERROR",
          ErrorText := "Empty username or password or access_key or secret_token" },
        [])
  let status : AuthStatus :=
    if configs.Auth.AuthorizationCode = "" then
      { status with Status := env.AuthStateNotAuthenticated }
    else { status with Status := env.AuthStateAuthenticated }
  let status : AuthStatus :=
    if configs.Auth.AccessToken ≠ "" ∧ configs.Auth.RefreshToken ≠ "" then status
    else { status with Status := "ERROR", ErrorText := "Empty accessToken or refreshToken" }
  let msg : OutMessage :=
    { Typ := "evt.auth.status_report", Service := env.ServiceName, ValueType := VType.VTypeObject,
      Value := OutValue.authStatus status, requestMessage := some newMsg.Payload }
  { state := { st with configs := configs },
    trace := trace ++ respondOrPublish env newMsg.Payload adr msg }

/-- The case `cmd.network.get_all_nodes` (lines 201-227). -/
def cmdNetworkGetAllNodes (env : Env) (st : RouterState) (newMsg : Message) (adr : Address) :
    Run :=
  let configs : Configs :=
    { st.configs with DeviceCollection := [], RoomCollection := [], HomeCollection := [] }
  match env.GetAllDevices configs.Auth.AccessToken with
  | none =>
    { state := { st with configs := configs },
      trace := [Effect.GetAllDevices configs.Auth.AccessToken], panicked := true }
  | some r =>
    let configs : Configs :=
      { configs with
        HomeCollection := configs.HomeCollection ++ r.allHomes,
        RoomCollection := configs.RoomCollection ++ r.allRooms,
        DeviceCollection := configs.DeviceCollection ++ r.allDevices,
        IndependentDeviceCollection :=
          configs.IndependentDeviceCollection ++ r.allIndependentDevices }
    let msg : OutMessage :=
      { Typ := "evt.network.get_all_nodes_report", Service := env.ServiceName,
        ValueType := VType.VTypeObject, Value := OutValue.devices configs.DeviceCollection,
        requestMessage := some newMsg.Payload }
    { state := { st with configs := configs },
      trace := Effect.GetAllDevices configs.Auth.AccessToken ::
        respondOrPublish env newMsg.Payload adr msg }

/-- The case `cmd.app.get_manifest` (lines 229-249). -/
def cmdAppGetManifest (env : Env) (st : RouterState) (newMsg : Message) (adr : Address) : Run :=
  let (mode, err) := newMsg.Payload.GetStringValue
  if err then { state := st }
  else
    match env.LoadFromFile with
    | none => { state := st }
    | some file =>
      let manifest : Manifest := { file := file }
      let manifest : Manifest :=
        if mode = "manifest_state" then
          { manifest with AppState := some st.appLifecycle, ConfigState := some st.configs }
        else manifest
      let msg : OutMessage :=
        { Typ := "evt.app.manifest_report", Service := env.ServiceName,
          ValueType := VType.VTypeObject, Value := OutValue.manifest manifest,
          requestMessage := some newMsg.Payload }
      { state := st, trace := respondOrPublish env newMsg.Payload adr msg }

/-- The case `cmd.config.extended_set` (lines 265-285). -/
def cmdConfigExtendedSet (env : Env) (st : RouterState) (newMsg : Message) (adr : Address) :
    Run :=
  match newMsg.Payload.Value with
  | Value.object (some conf) =>
    let configs : Configs := { st.configs with Param1 := conf.Param1, Param2 := conf.Param2 }
    let configReport : ConfigReport := { OpStatus := "ok", AppState := st.appLifecycle }
    let msg : OutMessage :=
      { Typ := "evt.app.config_report", Service := env.ServiceName,
        ValueType := VType.VTypeObject, Value := OutValue.configReport configReport,
        requestMessage := some newMsg.Payload }
    { state := { st with configs := configs },
      trace := Effect.SaveToFile configs :: respondOrPublish env newMsg.Payload adr msg }
  | _ => { state := st }

/-- The case `cmd.log.set_level` (lines 287-299). -/
def cmdLogSetLevel (env : Env) (st : RouterState) (newMsg : Message) : Run :=
  let (level, err) := newMsg.Payload.GetStringValue
  if err then { state := st }
  else if env.ParseLevel level then
    let configs : Configs := { st.configs with LogLevel := level }
    { state := { st with configs := configs },
      trace := [Effect.SetLevel level, Effect.SaveToFile configs] }
  else { state := st }

/-- The case `cmd.system.reconnect` (lines 301-315). -/
def cmdSystemReconnect (env : Env) (st : RouterState) (newMsg : Message) (adr : Address) : Run :=
  let appLifecycle := env.PublishEvent st.appLifecycle env.EventConfigured "from-fimp-router"
  let val : ButtonActionResponse :=
    { Operation := "cmd.system.reconnect", OperationStatus := "ok", Next := "config",
      ErrorCode := "", ErrorText := "" }
  let msg : OutMessage :=
    { Typ := "evt.app.config_action_report", Service := env.ServiceName,
      ValueType := VType.VTypeObject, Value := OutValue.buttonAction val,
      requestMessage := some newMsg.Payload }
  { state := { st with appLifecycle := appLifecycle },
    trace := Effect.PublishEvent env.EventConfigured "from-fimp-router" ::
      respondOrPublish env newMsg.Payload adr msg }

/-- The case `cmd.app.factory_reset` (lines 317-331). -/
def cmdAppFactoryReset (env : Env) (st : RouterState) (newMsg : Message) (adr : Address) : Run :=
  let val : ButtonActionResponse :=
    { Operation := "cmd.app.factory_reset", OperationStatus := "ok", Next := "config",
      ErrorCode := "", ErrorText := "" }
  let appLifecycle : Lifecycle :=
    { ConfigState := env.ConfigStateNotConfigured, AppState := env.AppStateNotConfigured,
      AuthState := env.AuthStateNotAuthenticated }
  let msg : OutMessage :=
    { Typ := "evt.app.config_action_report", Service := env.ServiceName,
      ValueType := VType.VTypeObject, Value := OutValue.buttonAction val,
      requestMessage := some newMsg.Payload }
  { state := { st with appLifecycle := appLifecycle },
    trace := respondOrPublish env newMsg.Payload adr msg }

/-- The case `cmd.thing.get_inclusion_report` (lines 333-351). -/
def cmdThingGetInclusionReport (env : Env) (st : RouterState) (newMsg : Message) : Run :=
  let (deviceID, _) := newMsg.Payload.GetStringValue
  let (nodeID, _) := env.FindDeviceFromDeviceID st.configs deviceID
  if nodeID ≠ 9999 then
    match env.SendInclusionReport nodeID st.configs.DeviceCollection with
    | none => { state := st, panicked := true }
    | some inclReport =>
      let msg : OutMessage :=
        { Typ := "evt.thing.inclusion_report", Service := "mill", ValueType := VType.VTypeObject,
          Value := OutValue.inclusionReport inclReport, requestMessage := none }
      let adr : Address :=
        { ResourceType := ResourceType.ResourceTypeAdapter, ResourceName := "mill",
          ResourceAddress := "1" }
      { state := st, trace := [Effect.Publish adr msg] }
  else { state := st }

/-- The `model.ServiceName` arm of the service switch (lines 154-372). -/
def routeAdapter (env : Env) (st : RouterState) (newMsg : Message) : Run :=
  let adr : Address :=
    { ResourceType := ResourceType.ResourceTypeAdapter, ResourceName := env.ServiceName,
      ResourceAddress := "1" }
  let typ := newMsg.Payload.Typ
  if typ = "cmd.auth.login" then cmdAuthLogin env st newMsg adr
  else if typ = "cmd.network.get_all_nodes" then cmdNetworkGetAllNodes env st newMsg adr
  else if typ = "cmd.app.get_manifest" then cmdAppGetManifest env st newMsg adr
  else if typ = "cmd.app.get_state" then
    let msg : OutMessage :=
      { Typ := "evt.app.manifest_report", Service := env.ServiceName,
        ValueType := VType.VTypeObject, Value := OutValue.states st.appLifecycle,
        requestMessage := some newMsg.Payload }
    { state := st, trace := respondOrPublish env newMsg.Payload adr msg }
  else if typ = "cmd.config.get_extended_report" then
    let msg : OutMessage :=
      { Typ := "evt.config.extended_report", Service := env.ServiceName,
        ValueType := VType.VTypeObject, Value := OutValue.configs st.configs,
        requestMessage := some newMsg.Payload }
    { state := st, trace := respondOrPublish env newMsg.Payload adr msg }
  else if typ = "cmd.config.extended_set" then cmdConfigExtendedSet env st newMsg adr
  else if typ = "cmd.log.set_level" then cmdLogSetLevel env st newMsg
  else if typ = "cmd.system.reconnect" then cmdSystemReconnect env st newMsg adr
  else if typ = "cmd.app.factory_reset" then cmdAppFactoryReset env st newMsg adr
  else if typ = "cmd.thing.get_inclusion_report" then cmdThingGetInclusionReport env st newMsg
  else { state := st }

/-- Go `(fc *FromFimpRouter).routeFimpMessage(newMsg)`: the session check, the
address normalisation and the service switch. -/
def routeFimpMessage (env : Env) (st : RouterState) (newMsg : Message) : Run :=
  let (auth, _, trace0) := sessionCheck env st.configs.Auth {}
  let st1 : RouterState := { st with configs := { st.configs with Auth := auth } }
  let addr := normalizeAddr newMsg.Payload.Service newMsg.ServiceAddress
  let run : Run :=
    if newMsg.Payload.Service = "thermostat" then routeThermostat env st1 newMsg addr
    else if newMsg.Payload.Service = "sensor_temp" then routeSensorTemp env st1 newMsg addr
    else if newMsg.Payload.Service = env.ServiceName then routeAdapter env st1 newMsg
    else { state := st1 }
  { run with trace := trace0 ++ run.trace }

/-! ## `setpointSet` (`router/cmd_setpoint.go`) -/

/-- Go `(fc *FromFimpRouter).setpointSet(oldMsg, config)`: what it does to the
outside. `config` is passed by value and the router state is only read. -/
def setpointSet (env : Env) (st : RouterState) (oldMsg : Message) (config : Config) :
    List Effect :=
  let addr := oldMsg.ServiceAddress
  let (val, _) := oldMsg.Payload.GetStrMapValue
  let (valFloat, err) := ParseFloat (mapGet val "temp")
  if err ≠ none then []
  else
    let newTemp := Itoa (intCeil env.intBits env.intOutOfRange valFloat)
    let deviceID := addr
    let (_, err, _) := Config.TempControl env.vendor config st.configs.Auth.AccessToken deviceID newTemp
    if err ≠ none then [Effect.TempControl st.configs.Auth.AccessToken deviceID newTemp]
    else
      let adr : Address :=
        { ResourceType := ResourceType.ResourceTypeDevice, ResourceName := env.ServiceName,
          ResourceAddress := "1", ServiceName := "thermostat", ServiceAddress := addr }
      let msg : OutMessage :=
        { Typ := "evt.setpoint.report", Service := "thermostat", ValueType := VType.VTypeStrMap,
          Value := OutValue.strMap val, requestMessage := some oldMsg.Payload }
      [Effect.TempControl st.configs.Auth.AccessToken deviceID newTemp, Effect.Publish adr msg]

/-! ## A concrete environment, for evaluating the embedding -/

/-- A vendor API that answers every call with status 200 and a body that
leaves the holder as it is (so `errorCode` stays 0). -/
def okVendor : Vendor where
  refresh := fun _ => HttpResult.response 200 (fun h => (h, true))
  homeList := fun _ => HttpResult.response 200 (fun h => (h, true))
  roomList := fun _ _ _ => HttpResult.response 200 (fun h => (h, true))
  deviceList := fun _ _ _ => HttpResult.response 200 (fun h => (h, true))
  deviceControl := fun _ _ _ => HttpResult.response 200 (fun h => (h, true))
  newRequestFails := fun _ => false

/-- A linear search of `devices` for the device whose `id` is `deviceID`, from
index `i` on; `9999` stands for "not found". -/
def findDeviceFrom (deviceID : String) : List Device → Nat → Int × Bool
  | [], _ => (9999, true)
  | d :: ds, i => if d.id = deviceID then (i, false) else findDeviceFrom deviceID ds (i + 1)

/-- Modelled from the spec: `fc.configs.FindDeviceFromDeviceID` (package
`model` is not among the sources), the linear search of §4.2 over the device
collection, with the index `9999` that `routeFimpMessage` line 345 tests for
as its "not found" result. -/
def findDeviceFromDeviceID (configs : Configs) (deviceID : String) : Int × Bool :=
  findDeviceFrom deviceID configs.DeviceCollection 0

/-- A concrete environment: a clock at 500 ms, a 64-bit `int`, an answering
vendor, a bus on which `RespondToRequest` succeeds exactly when the request
names a response topic. -/
def demoEnv : Env where
  ServiceName := "lvi"
  AuthStateAuthenticated := "AUTHENTICATED"
  AuthStateNotAuthenticated := "NOT_AUTHENTICATED"
  ConfigStateNotConfigured := "NOT_CONFIGURED"
  AppStateNotConfigured := "NOT_CONFIGURED"
  EventConfigured := "CONFIGURED"
  millis := 500
  vendor := okVendor
  NewClient := fun _ _ _ _ => {}
  GetAllDevices := fun _ => some {}
  FindDeviceFromDeviceID := findDeviceFromDeviceID
  CurrentTemp := fun d => some d.current_temp
  Sprintf2f := fun t => t
  SendInclusionReport := fun _ _ => some ""
  RespondToRequest := fun requestMsg _ => decide (requestMsg.ResponseToTopic ≠ "")
  LoadFromFile := some ""
  ParseLevel := fun _ => true
  PublishEvent := fun l _ _ => l
  intBits := 64
  intOutOfRange := fun _ => -9223372036854775808

/-- An authenticated router state with access token `"tok"`. -/
def demoState : RouterState where
  configs :=
    { Auth :=
        { AuthorizationCode := "code", AccessToken := "tok", RefreshToken := "ref",
          ExpireTime := 1000, RefreshExpireTime := 5000 } }

/-- A `cmd.setpoint.set` message for the thermostat at address `"7"` asking for
the temperature `temp`. -/
def setpointMsg (temp : String) : Message where
  ServiceAddress := "7"
  Payload :=
    { Service := "thermostat", Typ := "cmd.setpoint.set",
      Value := Value.strMap [("temp", temp)] }


/-- Whether an effect is a call of `RefreshToken`. -/
def Effect.isRefreshToken : Effect → Bool
  | Effect.RefreshToken _ => true
  | _ => false

/-- The environment `demoEnv` at 2000 ms, when the session of `demoState` is due
for a refresh (1000 ≤ 2000 < 5000), with a vendor whose refresh round trip has
the outcome `r`. -/
def refreshDueEnv (r : HttpResult Config) : Env :=
  { demoEnv with millis := 2000, vendor := { okVendor with refresh := fun _ => r } }

/-- A vendor with two homes: the home listing answers with two homes, the room
listing answers with one room for the first home and fails for the second, and
every device listing answers with one device. The entries are as
`encoding/json` decodes them into the structs of `lviapi`. -/
def twoHomesVendor : Vendor :=
  { okVendor with
    homeList := fun _ =>
      HttpResult.response 200 (fun c => ({ c with Data := { c.Data with Homes := [{}, {}] } }, true))
    roomList := fun call _ _ =>
      if call = 0 then
        HttpResult.response 200 (fun c => ({ c with Data := { c.Data with Rooms := [{}] } }, true))
      else HttpResult.transportError
    deviceList := fun _ _ _ =>
      HttpResult.response 200 (fun c => ({ c with Data := { c.Data with Devices := [{}] } }, true)) }

/-- The same vendor when the room listing fails for the first home and answers
for the second. -/
def twoHomesVendorFirstFails : Vendor :=
  { twoHomesVendor with
    roomList := fun call _ _ =>
      if call = 1 then
        HttpResult.response 200 (fun c => ({ c with Data := { c.Data with Rooms := [{}] } }, true))
      else HttpResult.transportError }

/-- A thermostat `cmd.setpoint.get_report` message for the address `"l7_0"`,
which normalises to `"7"`. -/
def getReportMsg : Message where
  ServiceAddress := "l7_0"
  Payload := { Service := "thermostat", Typ := "cmd.setpoint.get_report" }

/-- A `cmd.network.get_all_nodes` message. -/
def getAllNodesMsg : Message where
  ServiceAddress := "1"
  Payload := { Service := "lvi", Typ := "cmd.network.get_all_nodes" }

/-- A `cmd.auth.login` request with four credentials, asking for a reply on the
topic `"rsp"`. -/
def loginMsg (username password accessKey secretToken : String) : Message where
  ServiceAddress := "1"
  Payload :=
    { Service := "lvi", Typ := "cmd.auth.login",
      Properties :=
        [("username", username), ("password", password), ("access_key", accessKey),
          ("secret_token", secretToken)],
      ResponseToTopic := "rsp" }

/-- The devices, rooms and homes that `demoListingEnv` lists. -/
def demoListing : AllDevices where
  allDevices := [{ id := "7" }, { id := "8" }]
  allRooms := [{ zone_id := "z1" }]
  allHomes := [{ smarthome_id := "h1" }]
  allIndependentDevices := [{ id := "9" }]

/-- The environment `demoEnv` with a `GetAllDevices` that returns
`demoListing`. -/
def demoListingEnv : Env :=
  { demoEnv with GetAllDevices := fun _ => some demoListing }

/-- The state `demoState` with a registry left by an earlier listing. -/
def staleState : RouterState :=
  { demoState with
    configs :=
      { demoState.configs with
        DeviceCollection := [{ id := "old" }], RoomCollection := [{ zone_id := "oldroom" }],
        HomeCollection := [{ smarthome_id := "oldhome" }] } }

/-- Whether an effect is an attempt to put a message on the bus:
`RespondToRequest` or `Publish`. -/
def Effect.isBus : Effect → Bool
  | Effect.RespondToRequest _ _ _ => true
  | Effect.Publish _ _ => true
  | _ => false

/-- Whether an effect is a `RespondToRequest`, that is an attempt to reply. -/
def Effect.isRespondToRequest : Effect → Bool
  | Effect.RespondToRequest _ _ _ => true
  | _ => false

/-- The router state as the session check (lines 57-65) leaves it, which is the
state the service switch starts from. -/
def afterSessionCheck (env : Env) (st : RouterState) : RouterState :=
  { st with configs := { st.configs with Auth := (sessionCheck env st.configs.Auth {}).1 } }

/-- The publish policy "reply first, else broadcast", on the bus effects of the
run of one handler on the request `requestMsg`: nothing at all, or one
`RespondToRequest` that succeeded, or one `RespondToRequest` that failed followed
by the `Publish` of the same message to the default event address `adr`. -/
def replyFirstElseBroadcast (requestMsg : FimpMessage) (adr : Address) : List Effect → Bool
  | [] => true
  | [Effect.RespondToRequest r _ true] => decide (r = requestMsg)
  | [Effect.RespondToRequest r m false, Effect.Publish a m1] =>
    decide (r = requestMsg ∧ a = adr ∧ m1 = m)
  | _ => false

/-- The default event address of the adapter handlers, the local `adr` of the
`model.ServiceName` arm (line 157). -/
def adapterAdr (env : Env) : Address :=
  { ResourceType := ResourceType.ResourceTypeAdapter, ResourceName := env.ServiceName,
    ResourceAddress := "1" }

/-- A `cmd.thing.get_inclusion_report` message asking for the device
`deviceID`. -/
def inclusionReportMsg (deviceID : String) : Message where
  ServiceAddress := "1"
  Payload :=
    { Service := "lvi", Typ := "cmd.thing.get_inclusion_report",
      Value := Value.string deviceID }

/-- A router state whose device collection holds 10000 devices, the last of
which (index 9999) has the id `"x"`. -/
def manyDevicesState : RouterState where
  configs := { DeviceCollection := List.replicate 9999 {} ++ [{ id := "x" }] }

/-- A `cmd.app.factory_reset` message. -/
def factoryResetMsg : Message where
  ServiceAddress := "1"
  Payload := { Service := "lvi", Typ := "cmd.app.factory_reset" }

/-- A thermostat `cmd.mode.get_report` request that names the response topic
`"rsp"`. -/
def modeGetReportMsg : Message where
  ServiceAddress := "l7_0"
  Payload := { Service := "thermostat", Typ := "cmd.mode.get_report", ResponseToTopic := "rsp" }

/-- The environment `demoEnv` with a vendor whose device-control round trip has
the outcome `r`. -/
def deviceControlEnv (r : HttpResult Config) : Env :=
  { demoEnv with vendor := { okVendor with deviceControl := fun _ _ _ => r } }

/-- The environment `demoEnv` with the clock at `millis`. -/
def envAt (millis : Int) : Env :=
  { demoEnv with millis := millis }

/-- A numeric string: a decimal or hexadecimal floating-point literal, that is
a string that the literal scanner `readFloat` reads to its end. The special
values `NaN`, `Inf` and `Infinity` are not numeric strings. -/
def isNumericString (s : String) : Bool :=
  match readFloat s.data with
  | some (_, []) => true
  | _ => false

/-- One of the special values that `ParseFloat` accepts besides numbers:
`special` reads `s` to its end (`nan`, `inf` or `infinity` in any case, the
last two with an optional sign). -/
def isSpecialValue (s : String) : Bool :=
  match special s.data with
  | some (_, n) => decide (n = s.data.length)
  | none => false

/-- A `cmd.setpoint.set` request for the thermostat at address `"7"` asking for
the temperature `temp` and naming the response topic `"rsp"`. -/
def setpointReplyMsg (temp : String) : Message where
  ServiceAddress := "7"
  Payload :=
    { Service := "thermostat", Typ := "cmd.setpoint.set",
      Value := Value.strMap [("temp", temp)], ResponseToTopic := "rsp" }

/-! # Theorems -/

/-! ## Lemmas on `replaceFirst` -/

theorem replaceFirst_of_not_infix (old : List Char) (s : List Char)
    (hold : old ≠ []) (h : ¬ old <:+: s) : replaceFirst old [] s = s := by
  induction s with
  | nil =>
    cases old with
    | nil => exact absurd rfl hold
    | cons a as => simp [replaceFirst]
  | cons c cs ih =>
    have hpre : ¬ old <+: (c :: cs) := fun hp => h hp.isInfix
    have htail : ¬ old <:+: cs := by
      intro hi
      apply h
      obtain ⟨u, v, huv⟩ := hi
      exact ⟨c :: u, v, by simp [← huv]⟩
    have hb : old.isPrefixOf (c :: cs) = false := by
      cases hx : old.isPrefixOf (c :: cs) with
      | false => rfl
      | true => exact absurd (List.isPrefixOf_iff_prefix.mp hx) hpre
    simp [replaceFirst, hb, ih htail]

theorem replaceFirst_length_of_infix (old : List Char) (s : List Char)
    (h : old <:+: s) : (replaceFirst old [] s).length + old.length = s.length := by
  induction s with
  | nil =>
    have : old = [] := List.eq_nil_of_infix_nil h
    subst this
    simp [replaceFirst]
  | cons c cs ih =>
    cases hx : old.isPrefixOf (c :: cs) with
    | true =>
      have hp : old <+: (c :: cs) := List.isPrefixOf_iff_prefix.mp hx
      have hl : old.length ≤ (c :: cs).length := hp.length_le
      simp only [replaceFirst, hx, if_true, List.nil_append, List.length_drop]
      omega
    | false =>
      have hnp : ¬ old <+: (c :: cs) := fun hp => by
        have := List.isPrefixOf_iff_prefix.mpr hp
        simp [hx] at this
      have htail : old <:+: cs := by
        rcases List.infix_cons_iff.mp h with hp | hi
        · exact absurd hp hnp
        · exact hi
      have := ih htail
      simp only [replaceFirst, hx, List.length_cons]
      simp at this ⊢
      omega


theorem stringsReplaceOnce_eq_self_iff (s old : String) (hold : old.data ≠ []) :
    stringsReplaceOnce s old "" = s ↔ ¬ containsStr s old := by
  unfold stringsReplaceOnce containsStr
  constructor
  · intro h hin
    have hl := replaceFirst_length_of_infix old.data s.data hin
    have hd : replaceFirst old.data "".data s.data = s.data := congrArg String.data h
    have h0 : "".data = [] := rfl
    rw [h0] at hd
    rw [hd] at hl
    have : 0 < old.data.length := List.length_pos.mpr hold
    omega
  · intro hin
    have h0 : "".data = [] := rfl
    rw [h0, replaceFirst_of_not_infix old.data s.data hold hin]

theorem stringsReplaceOnce_length_lt (s old : String) (hold : old.data ≠ [])
    (h : containsStr s old) :
    (stringsReplaceOnce s old "").data.length < s.data.length := by
  have hl := replaceFirst_length_of_infix old.data s.data h
  have : 0 < old.data.length := List.length_pos.mpr hold
  have h0 : (stringsReplaceOnce s old "").data = replaceFirst old.data [] s.data := rfl
  rw [h0]
  omega

theorem stringsReplaceOnce_length_le (s old : String) (hold : old.data ≠ []) :
    (stringsReplaceOnce s old "").data.length ≤ s.data.length := by
  by_cases h : containsStr s old
  · exact Nat.le_of_lt (stringsReplaceOnce_length_lt s old hold h)
  · rw [(stringsReplaceOnce_eq_self_iff s old hold).mpr h]

theorem replaceTwice_eq_self_iff (t : String) :
    stringsReplaceOnce (stringsReplaceOnce t "_0" "") "l" "" = t ↔
      (¬ containsStr t "_0" ∧ ¬ containsStr t "l") := by
  have h0 : ("_0" : String).data ≠ [] := by decide
  have hl : ("l" : String).data ≠ [] := by decide
  constructor
  · intro h
    have hno : ¬ containsStr t "_0" := by
      intro hin
      have h1 := stringsReplaceOnce_length_lt t "_0" h0 hin
      have h2 := stringsReplaceOnce_length_le (stringsReplaceOnce t "_0" "") "l" hl
      rw [h] at h2
      omega
    have h1 := (stringsReplaceOnce_eq_self_iff t "_0" h0).mpr hno
    rw [h1] at h
    exact ⟨hno, (stringsReplaceOnce_eq_self_iff t "l" hl).mp h⟩
  · rintro ⟨hno, hnl⟩
    rw [(stringsReplaceOnce_eq_self_iff t "_0" h0).mpr hno,
      (stringsReplaceOnce_eq_self_iff t "l" hl).mpr hnl]

/-- C1 (as stated, refuted): normalising `"12_0_0"` for the `thermostat`
service gives `"12_0"`, and normalising that again gives `"12"`; likewise
`"ll7"` gives `"l7"` and then `"7"`. Normalisation is not idempotent. -/
theorem normalizeAddr_not_idempotent :
    normalizeAddr "thermostat" "12_0_0" = "12_0" ∧
    normalizeAddr "thermostat" (normalizeAddr "thermostat" "12_0_0") = "12" ∧
    normalizeAddr "thermostat" (normalizeAddr "thermostat" "12_0_0")
      ≠ normalizeAddr "thermostat" "12_0_0" ∧
    normalizeAddr "sensor_temp" (normalizeAddr "sensor_temp" "ll7")
      ≠ normalizeAddr "sensor_temp" "ll7" := by
  decide

/-- C1 (amended): normalising an already-normalised address returns it
unchanged exactly when the normalised address contains no `"_0"` and, for the
`thermostat` and `sensor_temp` services, no `"l"`. -/
theorem normalizeAddr_idempotent_iff (service serviceAddress : String) :
    normalizeAddr service (normalizeAddr service serviceAddress)
        = normalizeAddr service serviceAddress ↔
      (¬ containsStr (normalizeAddr service serviceAddress) "_0" ∧
        ((service = "thermostat" ∨ service = "sensor_temp") →
          ¬ containsStr (normalizeAddr service serviceAddress) "l")) := by
  have h0 : ("_0" : String).data ≠ [] := by decide
  generalize ht : normalizeAddr service serviceAddress = t
  by_cases h1 : service = "thermostat"
  · have hn : normalizeAddr service t
        = stringsReplaceOnce (stringsReplaceOnce t "_0" "") "l" "" := by
      simp [normalizeAddr, h1]
    rw [hn, replaceTwice_eq_self_iff]
    simp [h1]
  · by_cases h2 : service = "sensor_temp"
    · have hn : normalizeAddr service t
          = stringsReplaceOnce (stringsReplaceOnce t "_0" "") "l" "" := by
        simp [normalizeAddr, h2]
      rw [hn, replaceTwice_eq_self_iff]
      simp [h2]
    · have hn : normalizeAddr service t = stringsReplaceOnce t "_0" "" := by
        simp [normalizeAddr, h1, h2]
      rw [hn, stringsReplaceOnce_eq_self_iff t "_0" h0]
      simp [h1, h2]

/-! ## Rounding to binary64 -/

theorem log2Aux_spec (fuel : Nat) : ∀ n, n ≤ fuel → 0 < n →
    2 ^ log2Aux fuel n ≤ n ∧ n < 2 ^ (log2Aux fuel n + 1) := by
  induction fuel with
  | zero => intro n h1 h2; omega
  | succ fuel ih =>
    intro n h1 h2
    unfold log2Aux
    by_cases hn : n < 2
    · simp only [hn, if_true]
      constructor <;> simp <;> omega
    · simp only [hn, if_false]
      have hd : n / 2 ≤ fuel := by omega
      have hp : 0 < n / 2 := by omega
      obtain ⟨ha, hb⟩ := ih (n / 2) hd hp
      constructor
      · rw [Nat.pow_succ]; omega
      · rw [Nat.pow_succ]; omega

theorem log2_spec (n : Nat) (h : 0 < n) : 2 ^ log2 n ≤ n ∧ n < 2 ^ (log2 n + 1) :=
  log2Aux_spec n n (Nat.le_refl n) h

/-- Rounding on a grid of step `1/s` that is finer than `2/den` keeps the
rounded value strictly between the neighbouring integers of a non-integer. -/
theorem roundHalfEven_scaled (num den s : Nat) (hden : 0 < den) (h2s : den < 2 * s) :
    (num % den = 0 → roundHalfEven (num * s) den = num / den * s) ∧
    (0 < num % den →
      num / den * s < roundHalfEven (num * s) den ∧
      roundHalfEven (num * s) den < (num / den + 1) * s) := by
  have hs : 0 < s := by omega
  have hN : num * s = num % den * s + den * (num / den * s) := by
    have := Nat.div_add_mod num den
    calc num * s = (den * (num / den) + num % den) * s := by rw [this]
      _ = num % den * s + den * (num / den * s) := by ring
  have hq : num * s / den = num % den * s / den + num / den * s := by
    rw [hN, Nat.add_mul_div_left _ _ hden]
  have hr : num * s % den = num % den * s % den := by
    rw [hN, Nat.add_mul_mod_self_left]
  have hrlt : num % den < den := Nat.mod_lt _ hden
  generalize hI : num / den = I at *
  generalize hrr : num % den = r at *
  have hu : r * s / den < s := by
    rw [Nat.div_lt_iff_lt_mul hden]
    calc r * s < den * s := Nat.mul_lt_mul_of_pos_right hrlt hs
      _ = s * den := Nat.mul_comm _ _
  have hdm := Nat.div_add_mod (r * s) den
  have hwlt : r * s % den < den := Nat.mod_lt _ hden
  generalize hu' : r * s / den = u at *
  generalize hw' : r * s % den = w at *
  constructor
  · intro h0
    subst h0
    simp at hu' hw'
    subst hu' hw'
    unfold roundHalfEven
    simp only [hq, hr]
    simp [hden]
  · intro hpos
    have hge : s ≤ r * s := Nat.le_mul_of_pos_left s hpos
    have hle : r * s + s ≤ den * s := by
      have : (r + 1) * s ≤ den * s := Nat.mul_le_mul_right s hrlt
      calc r * s + s = (r + 1) * s := by ring
        _ ≤ den * s := this
    unfold roundHalfEven
    simp only [hq, hr]
    have hIs : (I + 1) * s = I * s + s := by ring
    rw [hIs]
    by_cases hu0 : u = 0
    · subst hu0
      have hw : w = r * s := by omega
      have h1 : ¬ 2 * w < den := by omega
      have h2 : den < 2 * w := by omega
      simp only [h1, h2, if_true, if_false]
      omega
    · by_cases hus : u + 1 = s
      · have hden_u : den * u + den = den * s := by rw [← hus]; ring
        have h1 : 2 * w < den := by omega
        simp only [h1, if_true]
        omega
      · split_ifs <;> omega

/-- The exponent `l` that `roundFloat64` settles on satisfies `2^l ≤ num / den`. -/
theorem geTwoPow_exponent (num den : Nat) (hnum : 0 < num) (hden : 0 < den) :
    geTwoPow num den
      (if geTwoPow num den ((log2 num : Int) - (log2 den : Int)) then
        (log2 num : Int) - (log2 den : Int)
      else (log2 num : Int) - (log2 den : Int) - 1) = true := by
  by_cases ht : geTwoPow num den ((log2 num : Int) - (log2 den : Int)) = true
  · simp only [ht, if_true]
  · simp only [ht, Bool.false_eq_true, if_false]
    obtain ⟨ha, -⟩ := log2_spec num hnum
    obtain ⟨-, hb⟩ := log2_spec den hden
    generalize log2 num = a at *
    generalize log2 den = b at *
    unfold geTwoPow
    by_cases hab : (0 : Int) ≤ (a : Int) - (b : Int) - 1
    · simp only [hab, if_true, decide_eq_true_eq]
      have hk : ((a : Int) - (b : Int) - 1).toNat = a - b - 1 := by omega
      rw [hk]
      have hle : b + 1 ≤ a := by omega
      have hpow : 2 ^ a = 2 ^ (b + 1) * 2 ^ (a - b - 1) := by
        rw [← Nat.pow_add]; congr 1; omega
      have : den * 2 ^ (a - b - 1) ≤ 2 ^ (b + 1) * 2 ^ (a - b - 1) :=
        Nat.mul_le_mul_right _ (Nat.le_of_lt hb)
      omega
    · simp only [hab, if_false, decide_eq_true_eq]
      have hk : (-((a : Int) - (b : Int) - 1)).toNat = b + 1 - a := by omega
      rw [hk]
      have hle : a ≤ b := by omega
      have hpow : 2 ^ (b + 1) = 2 ^ a * 2 ^ (b + 1 - a) := by
        rw [← Nat.pow_add]; congr 1; omega
      have : 2 ^ a * 2 ^ (b + 1 - a) ≤ num * 2 ^ (b + 1 - a) :=
        Nat.mul_le_mul_right _ ha
      omega

/-- For a fraction whose numerator is below `2^53`, the binary exponent of
`roundFloat64` is not positive and its grid is finer than `2/den`. -/
theorem exponent_grid (num den : Nat) (l : Int) (hden : 0 < den) (hnum : num < 2 ^ 53)
    (hden2 : den ≤ 2 ^ 1074) (hl : geTwoPow num den l = true) :
    max (l - 52) (-1074) ≤ 0 ∧ den < 2 * 2 ^ (-(max (l - 52) (-1074))).toNat := by
  unfold geTwoPow at hl
  by_cases h0 : 0 ≤ l
  · simp only [h0, if_true, decide_eq_true_eq] at hl
    obtain ⟨n, rfl⟩ := Int.eq_ofNat_of_zero_le h0
    simp only [Int.toNat_ofNat] at hl
    have hpow : 2 ^ n < 2 ^ 53 := by
      have : 2 ^ n ≤ den * 2 ^ n := Nat.le_mul_of_pos_left _ hden
      omega
    have hn : n < 53 := (Nat.pow_lt_pow_iff_right (by decide)).mp hpow
    have hmax : max ((n : Int) - 52) (-1074) = (n : Int) - 52 := by omega
    rw [hmax]
    refine ⟨by omega, ?_⟩
    have hk : (-((n : Int) - 52)).toNat = 52 - n := by omega
    rw [hk]
    have h53 : 2 ^ 53 = 2 ^ n * (2 * 2 ^ (52 - n)) := by
      rw [← Nat.pow_succ', ← Nat.pow_add]; congr 1; omega
    have hlt : den * 2 ^ n < 2 ^ n * (2 * 2 ^ (52 - n)) := by omega
    rw [Nat.mul_comm den] at hlt
    exact Nat.lt_of_mul_lt_mul_left hlt
  · simp only [h0, if_false, decide_eq_true_eq] at hl
    rcases le_total (l - 52) (-1074) with hc | hc
    · have hmax : max (l - 52) (-1074) = -1074 := by omega
      rw [hmax]
      refine ⟨by omega, ?_⟩
      have hk : (-(-1074 : Int)).toNat = 1074 := by decide
      rw [hk]
      omega
    · have hmax : max (l - 52) (-1074) = l - 52 := by omega
      rw [hmax]
      refine ⟨by omega, ?_⟩
      have hk : (-(l - 52)).toNat = 53 + (-l).toNat - 1 := by omega
      rw [hk]
      have hlt : num * 2 ^ (-l).toNat < 2 ^ 53 * 2 ^ (-l).toNat :=
        Nat.mul_lt_mul_of_pos_right hnum (Nat.pow_pos (by decide))
      have h2 : 2 * 2 ^ (53 + (-l).toNat - 1) = 2 ^ 53 * 2 ^ (-l).toNat := by
        rw [← Nat.pow_succ', ← Nat.pow_add]; congr 1; omega
      omega

theorem ceilFraction_eq (neg : Bool) (num den : Nat) (hden : 0 < den) :
    ceilFraction neg num den =
      if neg then -((num / den : Nat) : Int)
      else if num % den = 0 then ((num / den : Nat) : Int) else ((num / den + 1 : Nat) : Int) := by
  unfold ceilFraction
  cases neg
  · simp only [Bool.false_eq_true, if_false]
    have hdm := Nat.div_add_mod num den
    have hrlt : num % den < den := Nat.mod_lt _ hden
    generalize num / den = I at *
    generalize num % den = r at *
    have hmul : (I + 1) * den = den * I + den := by ring
    have hmul2 : (I + 1 + 1) * den = den * I + den + den := by ring
    have hmul0 : I * den = den * I := Nat.mul_comm _ _
    by_cases hr : r = 0
    · simp only [hr, if_true]
      congr 1
      apply Nat.div_eq_of_lt_le <;> omega
    · simp only [hr, if_false]
      congr 1
      apply Nat.div_eq_of_lt_le <;> omega
  · simp

/-- On fractions whose numerator is below `2^53` (and whose denominator is at
most `2^1074`), rounding to binary64 does not change the ceiling. -/
theorem roundFloat64_ceil (neg : Bool) (num den : Nat) (hden : 0 < den) (hnum : num < 2 ^ 53)
    (hden2 : den ≤ 2 ^ 1074) :
    ∃ m e, roundFloat64 neg num den = (Float64.finite neg m e, false) ∧
      ceilFinite neg m e = ceilFraction neg num den := by
  by_cases h0 : num = 0
  · subst h0
    refine ⟨0, 0, by simp [roundFloat64], ?_⟩
    rw [ceilFraction_eq neg 0 den hden]
    unfold ceilFinite
    cases neg <;> simp
  · have hpos : 0 < num := Nat.pos_of_ne_zero h0
    have hl := geTwoPow_exponent num den hpos hden
    have hround : roundFloat64 neg num den =
        (let l : Int := if geTwoPow num den ((log2 num : Int) - (log2 den : Int)) then
            (log2 num : Int) - (log2 den : Int)
          else (log2 num : Int) - (log2 den : Int) - 1
         let e : Int := max (l - 52) (-1074)
         let m : Nat :=
           if 0 ≤ e then roundHalfEven num (den * 2 ^ e.toNat)
           else roundHalfEven (num * 2 ^ (-e).toNat) den
         if 971 < e ∨ (e = 971 ∧ m = 2 ^ 53) then (Float64.inf neg, true)
         else (Float64.finite neg m e, false)) := by
      unfold roundFloat64
      simp only [h0, if_false]
    rw [hround]
    generalize (if geTwoPow num den ((log2 num : Int) - (log2 den : Int)) then
        (log2 num : Int) - (log2 den : Int)
      else (log2 num : Int) - (log2 den : Int) - 1) = l at hl
    obtain ⟨he, hgrid⟩ := exponent_grid num den l hden hnum hden2 hl
    simp only []
    generalize max (l - 52) (-1074) = e at he hgrid
    have hm : (if 0 ≤ e then roundHalfEven num (den * 2 ^ e.toNat)
        else roundHalfEven (num * 2 ^ (-e).toNat) den)
        = roundHalfEven (num * 2 ^ (-e).toNat) den := by
      by_cases hz : 0 ≤ e
      · have : e = 0 := by omega
        subst this
        simp
      · simp only [hz, if_false]
    rw [hm]
    have hov : ¬ (971 < e ∨ (e = 971 ∧ roundHalfEven (num * 2 ^ (-e).toNat) den = 2 ^ 53)) := by
      rintro (h | ⟨h, -⟩) <;> omega
    simp only [hov, if_false]
    refine ⟨_, _, rfl, ?_⟩
    rw [ceilFraction_eq neg num den hden]
    have hs : 0 < 2 ^ (-e).toNat := Nat.pow_pos (by decide)
    have hceil : ceilFinite neg (roundHalfEven (num * 2 ^ (-e).toNat) den) e =
        if neg then -((roundHalfEven (num * 2 ^ (-e).toNat) den / 2 ^ (-e).toNat : Nat) : Int)
        else (((roundHalfEven (num * 2 ^ (-e).toNat) den + 2 ^ (-e).toNat - 1)
          / 2 ^ (-e).toNat : Nat) : Int) := by
      unfold ceilFinite
      by_cases hz : 0 ≤ e
      · have : e = 0 := by omega
        subst this
        simp
      · simp only [hz, if_false]
    rw [hceil]
    obtain ⟨hr0, hrpos⟩ := roundHalfEven_scaled num den (2 ^ (-e).toNat) hden hgrid
    generalize 2 ^ (-e).toNat = s at *
    generalize roundHalfEven (num * s) den = m at *
    generalize num / den = I at *
    have hIs : (I + 1) * s = I * s + s := by ring
    have hIs2 : (I + 1 + 1) * s = I * s + s + s := by ring
    by_cases hr : num % den = 0
    · have hmI := hr0 hr
      simp only [hr, if_true]
      have h1 : m / s = I := by
        apply Nat.div_eq_of_lt_le <;> omega
      have h2 : (m + s - 1) / s = I := by
        apply Nat.div_eq_of_lt_le <;> omega
      rw [h1, h2]
    · obtain ⟨hlo, hhi⟩ := hrpos (Nat.pos_of_ne_zero hr)
      simp only [hr, if_false]
      have h1 : m / s = I := by
        apply Nat.div_eq_of_lt_le <;> omega
      have h2 : (m + s - 1) / s = I + 1 := by
        apply Nat.div_eq_of_lt_le <;> omega
      rw [h1, h2]

/-! ## `setpointSet` -/

theorem ParseFloat_empty : ParseFloat "" = (Float64.finite false 0 0, some NumError.ErrSyntax) := by
  decide

/-- C2 (as stated, refuted): the payload `"temp": "21.00000000000000000001"` is
a decimal numeric string (`readFloat` reads all of it, as a decimal literal)
whose value has ceiling 22, yet `setpointSet` passes `"21"` to `TempControl`:
the nearest binary64 value is 21. -/
theorem setpointSet_sends_21_for_a_number_above_21 :
    (readFloat "21.00000000000000000001".data).map (fun p => (p.1.hex, p.1.ceil, p.2))
        = some (false, 22, []) ∧
    (setpointSet demoEnv demoState (setpointMsg "21.00000000000000000001") {}).head?
        = some (Effect.TempControl "tok" "7" "21") := by
  decide

/-- When `ParseFloat` accepts the `"temp"` entry with a finite binary64 value
`f` whose ceiling is a value of `int`, `setpointSet` calls `TempControl` with
the access token, the service address and the decimal rendering of the
ceiling of `f`. -/
theorem setpointSet_sends_ceil_of_float (env : Env) (st : RouterState) (oldMsg : Message)
    (config : Config) (neg : Bool) (m : Nat) (e : Int)
    (hparse : ParseFloat (mapGet oldMsg.Payload.GetStrMapValue.1 "temp")
      = (Float64.finite neg m e, none))
    (hrange : inIntRange env.intBits (ceilFinite neg m e)) :
    (setpointSet env st oldMsg config).head?
      = some (Effect.TempControl st.configs.Auth.AccessToken oldMsg.ServiceAddress
          (Itoa (ceilFinite neg m e))) := by
  unfold setpointSet
  simp only [hparse, intCeil, hrange, if_true, ne_eq, not_true_eq_false, if_false]
  split <;> rfl

theorem Literal.fraction_den_pos (l : Literal) : 0 < l.fraction.2 := by
  unfold Literal.fraction
  by_cases he : 0 ≤ l.exp
  · simp only [he, if_true]
    exact Nat.one_pos
  · simp only [he, if_false]
    split
    · exact Nat.pow_pos (by decide)
    · exact Nat.pow_pos (by decide)

/-- C2 (amended): when the `"temp"` entry is a numeric literal that `ParseFloat`
reads in full, whose exact value is a fraction `num / den` with `num < 2^53`
and `den ≤ 2^1074` (every plain decimal of at most 15 digits is one), and
whose ceiling is a value of `int`, `setpointSet` calls `TempControl` with the
access token, the service address and the decimal rendering of the smallest
integer greater than or equal to that number. -/
theorem setpointSet_sends_ceil_of_number (env : Env) (st : RouterState) (oldMsg : Message)
    (config : Config) (l : Literal)
    (hspecial : special (mapGet oldMsg.Payload.GetStrMapValue.1 "temp").data = none)
    (hread : readFloat (mapGet oldMsg.Payload.GetStrMapValue.1 "temp").data = some (l, []))
    (hnum : l.fraction.1 < 2 ^ 53) (hden : l.fraction.2 ≤ 2 ^ 1074)
    (hrange : inIntRange env.intBits l.ceil) :
    (setpointSet env st oldMsg config).head?
      = some (Effect.TempControl st.configs.Auth.AccessToken oldMsg.ServiceAddress
          (Itoa l.ceil)) := by
  obtain ⟨m, e, hround, hceil⟩ :=
    roundFloat64_ceil l.neg l.fraction.1 l.fraction.2 l.fraction_den_pos hnum hden
  have hparse : ParseFloat (mapGet oldMsg.Payload.GetStrMapValue.1 "temp")
      = (Float64.finite l.neg m e, none) := by
    unfold ParseFloat
    simp [hspecial, hread, hround]
  have hc : ceilFinite l.neg m e = l.ceil := hceil
  rw [← hc] at hrange ⊢
  exact setpointSet_sends_ceil_of_float env st oldMsg config l.neg m e hparse hrange

theorem ten_le_two_pow : (10 : Nat) ≤ 2 ^ 1074 := by
  norm_num

/-- C2 (amended), at `"21.3"` and `"21.0"`: the values sent are `"22"` and
`"21"`. -/
theorem setpointSet_sends_ceil_of_number_witness :
    (readFloat (mapGet (setpointMsg "21.3").Payload.GetStrMapValue.1 "temp").data
        = some (⟨false, false, 213, -1⟩, []) ∧
      (setpointSet demoEnv demoState (setpointMsg "21.3") {}).head?
        = some (Effect.TempControl "tok" "7" "22")) ∧
    (readFloat (mapGet (setpointMsg "21.0").Payload.GetStrMapValue.1 "temp").data
        = some (⟨false, false, 210, -1⟩, []) ∧
      (setpointSet demoEnv demoState (setpointMsg "21.0") {}).head?
        = some (Effect.TempControl "tok" "7" "21")) :=
  ⟨⟨by decide,
      (setpointSet_sends_ceil_of_number demoEnv demoState (setpointMsg "21.3") {}
        ⟨false, false, 213, -1⟩ (by decide) (by decide) (by decide)
        (le_of_eq_of_le (by decide) ten_le_two_pow)
        (by decide)).trans (by decide)⟩,
    ⟨by decide,
      (setpointSet_sends_ceil_of_number demoEnv demoState (setpointMsg "21.0") {}
        ⟨false, false, 210, -1⟩ (by decide) (by decide) (by decide)
        (le_of_eq_of_le (by decide) ten_le_two_pow)
        (by decide)).trans (by decide)⟩⟩

/-- C3 (as stated, refuted): for `"temp": "21.3"`, accepted by the vendor,
`"22"` is sent to `TempControl` and the `evt.setpoint.report` published
carries `"temp": "21.3"`. -/
theorem setpointSet_report_carries_requested_temp :
    setpointSet demoEnv demoState (setpointMsg "21.3") {} =
      [Effect.TempControl "tok" "7" "22",
        Effect.Publish
          { ResourceType := ResourceType.ResourceTypeDevice, ResourceName := "lvi",
            ResourceAddress := "1", ServiceName := "thermostat", ServiceAddress := "7" }
          { Typ := "evt.setpoint.report", Service := "thermostat",
            ValueType := VType.VTypeStrMap, Value := OutValue.strMap [("temp", "21.3")],
            requestMessage := some (setpointMsg "21.3").Payload }] := by
  decide

/-- C3 (amended): when `ParseFloat` accepts the `"temp"` entry and `TempControl`
returns no error, `setpointSet` publishes one `evt.setpoint.report`, whose value
is the string map of the request, unchanged: its `"temp"` is the temperature as
requested, not the rounded value sent to the vendor. -/
theorem setpointSet_report_echoes_request (env : Env) (st : RouterState) (oldMsg : Message)
    (config : Config) (f : Float64)
    (hparse : ParseFloat (mapGet oldMsg.Payload.GetStrMapValue.1 "temp") = (f, none))
    (haccept : (Config.TempControl env.vendor config st.configs.Auth.AccessToken
      oldMsg.ServiceAddress (Itoa (intCeil env.intBits env.intOutOfRange f))).2.1 = none) :
    setpointSet env st oldMsg config =
      [Effect.TempControl st.configs.Auth.AccessToken oldMsg.ServiceAddress
          (Itoa (intCeil env.intBits env.intOutOfRange f)),
        Effect.Publish
          { ResourceType := ResourceType.ResourceTypeDevice, ResourceName := env.ServiceName,
            ResourceAddress := "1", ServiceName := "thermostat",
            ServiceAddress := oldMsg.ServiceAddress }
          { Typ := "evt.setpoint.report", Service := "thermostat",
            ValueType := VType.VTypeStrMap,
            Value := OutValue.strMap oldMsg.Payload.GetStrMapValue.1,
            requestMessage := some oldMsg.Payload }] := by
  unfold setpointSet
  simp only [hparse, haccept, ne_eq, not_true_eq_false, if_false]

/-- C3 (amended), at `"temp": "21.3"`. -/
theorem setpointSet_report_echoes_request_witness :
    ParseFloat (mapGet (setpointMsg "21.3").Payload.GetStrMapValue.1 "temp")
        = (Float64.finite false 5995417003936973 (-48), none) ∧
    setpointSet demoEnv demoState (setpointMsg "21.3") {} =
      [Effect.TempControl "tok" "7" "22",
        Effect.Publish
          { ResourceType := ResourceType.ResourceTypeDevice, ResourceName := "lvi",
            ResourceAddress := "1", ServiceName := "thermostat", ServiceAddress := "7" }
          { Typ := "evt.setpoint.report", Service := "thermostat",
            ValueType := VType.VTypeStrMap,
            Value := OutValue.strMap [("temp", "21.3")],
            requestMessage := some (setpointMsg "21.3").Payload }] :=
  ⟨by decide,
    (setpointSet_report_echoes_request demoEnv demoState (setpointMsg "21.3") {}
      (Float64.finite false 5995417003936973 (-48)) (by decide) (by decide)).trans (by decide)⟩

/-- When the `"temp"` entry of the payload is missing, or `ParseFloat` returns an
error for it, `setpointSet` does nothing. -/
theorem setpointSet_nil_of_parse_error (env : Env) (st : RouterState)
    (oldMsg : Message) (config : Config)
    (h : oldMsg.Payload.GetStrMapValue.1.lookup "temp" = none ∨
      (ParseFloat (mapGet oldMsg.Payload.GetStrMapValue.1 "temp")).2 ≠ none) :
    setpointSet env st oldMsg config = [] := by
  have herr : (ParseFloat (mapGet oldMsg.Payload.GetStrMapValue.1 "temp")).2 ≠ none := by
    rcases h with h | h
    · have : mapGet oldMsg.Payload.GetStrMapValue.1 "temp" = "" := by
        simp [mapGet, h]
      rw [this, ParseFloat_empty]
      simp
    · exact h
  unfold setpointSet
  exact if_pos herr

theorem ParseFloat_error_of_not_numeric (s : String)
    (hnum : isNumericString s = false) (hspecial : isSpecialValue s = false) :
    (ParseFloat s).2 = some NumError.ErrSyntax := by
  unfold isNumericString at hnum
  unfold isSpecialValue at hspecial
  unfold ParseFloat
  cases hs : special s.data with
  | some p =>
    obtain ⟨f, n⟩ := p
    rw [hs] at hspecial
    simp only [decide_eq_false_iff_not] at hspecial
    simp only [hspecial, if_false]
  | none =>
    simp only []
    cases hr : readFloat s.data with
    | none => rfl
    | some q =>
      obtain ⟨l, rest⟩ := q
      rw [hr] at hnum
      cases rest with
      | nil => simp at hnum
      | cons c cs => simp

theorem specialInf_value (neg : Bool) (nsign : Nat) (s : List Char) (f : Float64) (n : Nat)
    (h : specialInf neg nsign s = some (f, n)) : f = Float64.inf neg := by
  unfold specialInf at h
  simp only [] at h
  split_ifs at h
  all_goals
    injection h with h1
    injection h1 with h2 h3
    exact h2.symm

theorem special_value (s : List Char) (f : Float64) (n : Nat)
    (h : special s = some (f, n)) : (∃ neg, f = Float64.inf neg) ∨ f = Float64.nan := by
  unfold special at h
  split at h
  · simp at h
  · split at h
    · exact Or.inl ⟨_, specialInf_value _ _ _ _ _ h⟩
    · split at h
      · exact Or.inl ⟨_, specialInf_value _ _ _ _ _ h⟩
      · split at h
        · exact Or.inl ⟨_, specialInf_value _ _ _ _ _ h⟩
        · split at h
          · split at h
            · simp only [Option.some.injEq, Prod.mk.injEq] at h
              exact Or.inr h.1.symm
            · simp at h
          · simp at h

/-- C4 (as stated, refuted): `"NaN"` and `"-Infinity"` are not numeric strings,
yet `ParseFloat` accepts them without error, and `setpointSet` calls
`TempControl` (with the integer that the conversion of NaN or an infinity to
`int` yields, here `-9223372036854775808`) and publishes the report. -/
theorem setpointSet_calls_vendor_for_NaN :
    isNumericString "NaN" = false ∧
    ParseFloat "NaN" = (Float64.nan, none) ∧
    setpointSet demoEnv demoState (setpointMsg "NaN") {} =
      [Effect.TempControl "tok" "7" "-9223372036854775808",
        Effect.Publish
          { ResourceType := ResourceType.ResourceTypeDevice, ResourceName := "lvi",
            ResourceAddress := "1", ServiceName := "thermostat", ServiceAddress := "7" }
          { Typ := "evt.setpoint.report", Service := "thermostat",
            ValueType := VType.VTypeStrMap, Value := OutValue.strMap [("temp", "NaN")],
            requestMessage := some (setpointMsg "NaN").Payload }] ∧
    isNumericString "-Infinity" = false ∧
    ParseFloat "-Infinity" = (Float64.inf true, none) ∧
    (setpointSet demoEnv demoState (setpointMsg "-Infinity") {}).head?
      = some (Effect.TempControl "tok" "7" "-9223372036854775808") := by
  decide

/-- C4 (amended): when the `"temp"` entry of the payload is missing, or is
neither a numeric string nor one of the special values `NaN`, `Inf`,
`Infinity`, `setpointSet` does nothing: no `TempControl` call and no message.
When it is one of the special values, `ParseFloat` accepts it and `setpointSet`
calls `TempControl`, with the access token, the service address and the
decimal rendering of what the conversion of that value to `int` yields. -/
theorem setpointSet_silent_without_number (env : Env) (st : RouterState)
    (oldMsg : Message) (config : Config) :
    ((oldMsg.Payload.GetStrMapValue.1.lookup "temp" = none ∨
        (isNumericString (mapGet oldMsg.Payload.GetStrMapValue.1 "temp") = false ∧
          isSpecialValue (mapGet oldMsg.Payload.GetStrMapValue.1 "temp") = false)) →
      setpointSet env st oldMsg config = []) ∧
    (isSpecialValue (mapGet oldMsg.Payload.GetStrMapValue.1 "temp") = true →
      ∃ f, ParseFloat (mapGet oldMsg.Payload.GetStrMapValue.1 "temp") = (f, none) ∧
        (setpointSet env st oldMsg config).head?
          = some (Effect.TempControl st.configs.Auth.AccessToken oldMsg.ServiceAddress
              (Itoa (env.intOutOfRange f)))) := by
  constructor
  · intro h
    apply setpointSet_nil_of_parse_error
    rcases h with h | ⟨hnum, hspecial⟩
    · exact Or.inl h
    · right
      rw [ParseFloat_error_of_not_numeric _ hnum hspecial]
      simp
  · intro hsp
    unfold isSpecialValue at hsp
    cases hs : special (mapGet oldMsg.Payload.GetStrMapValue.1 "temp").data with
    | none => rw [hs] at hsp; simp at hsp
    | some p =>
      obtain ⟨f, n⟩ := p
      rw [hs] at hsp
      simp only [decide_eq_true_eq] at hsp
      have hparse : ParseFloat (mapGet oldMsg.Payload.GetStrMapValue.1 "temp") = (f, none) := by
        unfold ParseFloat
        simp only [hs, hsp, if_true]
      have hceil : intCeil env.intBits env.intOutOfRange f = env.intOutOfRange f := by
        rcases special_value _ _ _ hs with ⟨neg, hf⟩ | hf <;> subst hf <;> rfl
      refine ⟨f, hparse, ?_⟩
      unfold setpointSet
      simp only [hparse, hceil, ne_eq, not_true_eq_false, if_false]
      split <;> rfl

/-- C4 (amended), at `"temp": "abc"`, at a payload without a `"temp"` entry and
at `"temp": "NaN"`. -/
theorem setpointSet_silent_without_number_witness :
    (isNumericString "abc" = false ∧ isSpecialValue "abc" = false) ∧
    setpointSet demoEnv demoState (setpointMsg "abc") {} = [] ∧
    setpointSet demoEnv demoState
      { ServiceAddress := "7",
        Payload := { Service := "thermostat", Typ := "cmd.setpoint.set",
                     Value := Value.strMap [("unit", "C")] } } {} = [] ∧
    isSpecialValue "NaN" = true ∧
    ∃ f, ParseFloat "NaN" = (f, none) ∧
      (setpointSet demoEnv demoState (setpointMsg "NaN") {}).head?
        = some (Effect.TempControl "tok" "7" (Itoa (demoEnv.intOutOfRange f))) :=
  ⟨by decide,
    (setpointSet_silent_without_number demoEnv demoState (setpointMsg "abc") {}).1
      (Or.inr (by decide)),
    (setpointSet_silent_without_number demoEnv demoState _ {}).1 (Or.inl (by decide)),
    by decide,
    (setpointSet_silent_without_number demoEnv demoState (setpointMsg "NaN") {}).2 (by decide)⟩

/-! ## The session check -/

theorem respondOrPublish_no_refresh (env : Env) (requestMsg : FimpMessage) (adr : Address)
    (msg : OutMessage) :
    ∀ e ∈ respondOrPublish env requestMsg adr msg, e.isRefreshToken = false := by
  intro e he
  unfold respondOrPublish at he
  split at he
  · simp at he
    subst he
    rfl
  · simp at he
    rcases he with he | he <;> subst he <;> rfl

theorem routeThermostat_no_refresh (env : Env) (st : RouterState) (newMsg : Message)
    (addr : String) :
    ∀ e ∈ (routeThermostat env st newMsg addr).trace, e.isRefreshToken = false := by
  intro e he
  unfold routeThermostat at he
  simp only [] at he
  split at he
  · simp at he
  · split at he
    · split at he
      · simp at he
      · split at he
        · simp at he
        · simp at he; subst he; rfl
    · split at he
      · simp at he
      · split at he
        · simp at he; subst he; rfl
        · simp at he

theorem routeSensorTemp_no_refresh (env : Env) (st : RouterState) (newMsg : Message)
    (addr : String) :
    ∀ e ∈ (routeSensorTemp env st newMsg addr).trace, e.isRefreshToken = false := by
  intro e he
  unfold routeSensorTemp at he
  simp only [] at he
  split at he
  · split at he
    · simp at he
    · split at he
      · simp at he
      · simp at he; subst he; rfl
  · simp at he

theorem routeAdapter_no_refresh (env : Env) (st : RouterState) (newMsg : Message) :
    ∀ e ∈ (routeAdapter env st newMsg).trace, e.isRefreshToken = false := by
  intro e he
  unfold routeAdapter at he
  simp only [] at he
  split at he
  · unfold cmdAuthLogin at he
    simp only [] at he
    split at he <;> simp only [List.mem_append, List.mem_singleton, List.nil_append,
      List.cons_append, List.mem_cons] at he
    · rcases he with he | he
      · subst he; rfl
      · exact respondOrPublish_no_refresh _ _ _ _ e he
    · exact respondOrPublish_no_refresh _ _ _ _ e he
  split at he
  · unfold cmdNetworkGetAllNodes at he
    simp only [] at he
    split at he <;> simp only [List.mem_singleton, List.mem_cons] at he
    · simp at he; subst he; rfl
    · rcases he with he | he
      · subst he; rfl
      · exact respondOrPublish_no_refresh _ _ _ _ e he
  split at he
  · unfold cmdAppGetManifest at he
    simp only [] at he
    split at he
    · simp at he
    · split at he
      · simp at he
      · exact respondOrPublish_no_refresh _ _ _ _ e he
  split at he
  · exact respondOrPublish_no_refresh _ _ _ _ e he
  split at he
  · exact respondOrPublish_no_refresh _ _ _ _ e he
  split at he
  · unfold cmdConfigExtendedSet at he
    simp only [] at he
    split at he
    · simp only [List.mem_cons] at he
      rcases he with he | he
      · subst he; rfl
      · exact respondOrPublish_no_refresh _ _ _ _ e he
    · simp at he
  split at he
  · unfold cmdLogSetLevel at he
    simp only [] at he
    split at he
    · simp at he
    · split at he
      · simp at he; rcases he with he | he <;> subst he <;> rfl
      · simp at he
  split at he
  · unfold cmdSystemReconnect at he
    simp only [List.mem_cons] at he
    rcases he with he | he
    · subst he; rfl
    · exact respondOrPublish_no_refresh _ _ _ _ e he
  split at he
  · unfold cmdAppFactoryReset at he
    exact respondOrPublish_no_refresh _ _ _ _ e he
  split at he
  · unfold cmdThingGetInclusionReport at he
    simp only [] at he
    split at he
    · split at he
      · simp at he
      · simp at he; subst he; rfl
    · simp at he
  · simp at he

/-- C5: when the clock is before `expireAt`, the session check makes no call and
returns the session as it was, and the whole run of `routeFimpMessage` contains
no `RefreshToken` call, whatever the message. -/
theorem routeFimpMessage_no_refresh_before_expiry (env : Env) (st : RouterState)
    (newMsg : Message) (h : env.millis < st.configs.Auth.ExpireTime) :
    sessionCheck env st.configs.Auth {} = (st.configs.Auth, {}, []) ∧
    ∀ e ∈ (routeFimpMessage env st newMsg).trace, e.isRefreshToken = false := by
  have hs : sessionCheck env st.configs.Auth {} = (st.configs.Auth, {}, []) := by
    unfold sessionCheck
    have h1 : ¬ (env.millis > st.configs.Auth.ExpireTime ∧
        env.millis < st.configs.Auth.RefreshExpireTime) := by
      intro hc
      omega
    simp only [h1, if_false, ite_self]
  refine ⟨hs, ?_⟩
  intro e he
  unfold routeFimpMessage at he
  simp only [hs, List.nil_append] at he
  split at he
  · exact routeThermostat_no_refresh _ _ _ _ e he
  · split at he
    · exact routeSensorTemp_no_refresh _ _ _ _ e he
    · split at he
      · exact routeAdapter_no_refresh _ _ _ e he
      · simp at he

/-- C5, at `demoEnv` (clock 500) and the session of `demoState`
(`expireAt` 1000). -/
theorem routeFimpMessage_no_refresh_before_expiry_witness :
    demoEnv.millis < demoState.configs.Auth.ExpireTime ∧
    sessionCheck demoEnv demoState.configs.Auth {} = (demoState.configs.Auth, {}, []) ∧
    ∀ e ∈ (routeFimpMessage demoEnv demoState getAllNodesMsg).trace,
      e.isRefreshToken = false :=
  ⟨by decide,
    routeFimpMessage_no_refresh_before_expiry demoEnv demoState getAllNodesMsg (by decide)⟩

theorem sessionCheck_failed_refresh (env : Env) (auth : Auth)
    (hdue : auth.ExpireTime < env.millis ∧ env.millis < auth.RefreshExpireTime)
    (hne : auth.ExpireTime ≠ 0)
    (hfail : env.vendor.refresh auth.RefreshToken = HttpResult.transportError ∨
      ∃ status decode, status ≠ 200 ∧
        env.vendor.refresh auth.RefreshToken = HttpResult.response status decode) :
    (sessionCheck env auth {}).1 =
      { auth with AccessToken := "", RefreshToken := "", ExpireTime := 0,
                  RefreshExpireTime := 0 } := by
  have hd : env.millis > auth.ExpireTime ∧ env.millis < auth.RefreshExpireTime := hdue
  unfold sessionCheck Config.RefreshToken
  rcases hfail with h | ⟨status, decode, hs, h⟩
  · simp [hne, hd, h, processHTTPResponse]
  · simp [hne, hd, h, processHTTPResponse, hs]

/-- C6 (the code at the failing input): the session of `demoState` is due for a
refresh at 2000 ms, and the refresh fails, by a transport error or by status
500. After the session check the access token and the refresh token are empty
and both expiry times are 0: the stale session is not left in place. -/
theorem sessionCheck_wipes_session_on_failed_refresh :
    demoState.configs.Auth =
      { AuthorizationCode := "code", AccessToken := "tok", RefreshToken := "ref",
        ExpireTime := 1000, RefreshExpireTime := 5000 } ∧
    sessionCheck (refreshDueEnv HttpResult.transportError) demoState.configs.Auth {} =
      ({ AuthorizationCode := "code", AccessToken := "", RefreshToken := "", ExpireTime := 0,
         RefreshExpireTime := 0 }, {}, [Effect.RefreshToken "ref"]) ∧
    sessionCheck (refreshDueEnv (HttpResult.response 500 (fun c => (c, true))))
        demoState.configs.Auth {} =
      ({ AuthorizationCode := "code", AccessToken := "", RefreshToken := "", ExpireTime := 0,
         RefreshExpireTime := 0 }, {}, [Effect.RefreshToken "ref"]) := by
  decide

/-! ## `cmd.auth.login` -/

theorem cmdAuthLogin_empty_credentials (env : Env) (st : RouterState) (newMsg : Message)
    (adr : Address)
    (h : mapGet newMsg.Payload.Properties "username" = "" ∨
      mapGet newMsg.Payload.Properties "password" = "" ∨
      mapGet newMsg.Payload.Properties "access_key" = "" ∨
      mapGet newMsg.Payload.Properties "secret_token" = "") :
    (cmdAuthLogin env st newMsg adr).trace =
      respondOrPublish env newMsg.Payload adr
        { Typ := "evt.auth.status_report", Service := env.ServiceName,
          ValueType := VType.VTypeObject,
          Value := OutValue.authStatus
            (if st.configs.Auth.AccessToken ≠ "" ∧ st.configs.Auth.RefreshToken ≠ "" then
              { Status :=
                  if st.configs.Auth.AuthorizationCode = "" then env.AuthStateNotAuthenticated
                  else env.AuthStateAuthenticated,
                ErrorText := "Empty username or password or access_key or secret_token",
                ErrorCode := "" }
            else
              { Status := "ERROR", ErrorText := "Empty accessToken or refreshToken",
                ErrorCode := "" }),
          requestMessage := some newMsg.Payload } := by
  have hc : ¬ (mapGet newMsg.Payload.Properties "username" ≠ "" ∧
      mapGet newMsg.Payload.Properties "password" ≠ "" ∧
      mapGet newMsg.Payload.Properties "access_key" ≠ "" ∧
      mapGet newMsg.Payload.Properties "secret_token" ≠ "") := by
    rintro ⟨h1, h2, h3, h4⟩
    rcases h with h | h | h | h <;> contradiction
  unfold cmdAuthLogin
  simp only [hc, if_false, List.nil_append]
  by_cases ht : st.configs.Auth.AccessToken ≠ "" ∧ st.configs.Auth.RefreshToken ≠ ""
  · by_cases hcode : st.configs.Auth.AuthorizationCode = "" <;> simp [ht, hcode]
  · by_cases hcode : st.configs.Auth.AuthorizationCode = "" <;> simp [ht, hcode]

/-- C7 (the code at the failing input): with the authenticated session of
`demoState`, a `cmd.auth.login` whose username is empty makes no login call and
is answered by an `evt.auth.status_report` whose status is
`model.AuthStateAuthenticated`, next to the empty-credentials error text. -/
theorem cmdAuthLogin_empty_username_reports_authenticated :
    (routeFimpMessage demoEnv demoState (loginMsg "" "pw" "key" "sec")).trace =
      [Effect.RespondToRequest (loginMsg "" "pw" "key" "sec").Payload
        { Typ := "evt.auth.status_report", Service := "lvi", ValueType := VType.VTypeObject,
          Value := OutValue.authStatus
            { Status := demoEnv.AuthStateAuthenticated,
              ErrorText := "Empty username or password or access_key or secret_token",
              ErrorCode := "" },
          requestMessage := some (loginMsg "" "pw" "key" "sec").Payload }
        true] := by
  decide

/-! ## `cmd.network.get_all_nodes` -/

/-- C8: when `cmd.network.get_all_nodes` is handled and `GetAllDevices` returns,
the device, room and home collections afterwards are the lists it returned, in
order, whatever the collections held before. -/
theorem getAllNodes_replaces_collections (env : Env) (st : RouterState) (newMsg : Message)
    (r : AllDevices)
    (hservice : newMsg.Payload.Service = env.ServiceName)
    (hname : env.ServiceName ≠ "thermostat" ∧ env.ServiceName ≠ "sensor_temp")
    (htype : newMsg.Payload.Typ = "cmd.network.get_all_nodes")
    (hget : env.GetAllDevices (sessionCheck env st.configs.Auth {}).1.AccessToken = some r) :
    (routeFimpMessage env st newMsg).state.configs.DeviceCollection = r.allDevices ∧
    (routeFimpMessage env st newMsg).state.configs.RoomCollection = r.allRooms ∧
    (routeFimpMessage env st newMsg).state.configs.HomeCollection = r.allHomes ∧
    (routeFimpMessage env st newMsg).panicked = false := by
  have h1 : ¬ env.ServiceName = "thermostat" := hname.1
  have h2 : ¬ env.ServiceName = "sensor_temp" := hname.2
  have h3 : ¬ "cmd.network.get_all_nodes" = "cmd.auth.login" := by decide
  unfold routeFimpMessage routeAdapter cmdNetworkGetAllNodes
  simp [hservice, htype, h1, h2, h3, hget]

/-- C8, at a state whose three collections are not empty. -/
theorem getAllNodes_replaces_collections_witness :
    staleState.configs.DeviceCollection = [{ id := "old" }] ∧
    (routeFimpMessage demoListingEnv staleState getAllNodesMsg).state.configs.DeviceCollection
      = [{ id := "7" }, { id := "8" }] ∧
    (routeFimpMessage demoListingEnv staleState getAllNodesMsg).state.configs.RoomCollection
      = [{ zone_id := "z1" }] ∧
    (routeFimpMessage demoListingEnv staleState getAllNodesMsg).state.configs.HomeCollection
      = [{ smarthome_id := "h1" }] ∧
    (routeFimpMessage demoListingEnv staleState getAllNodesMsg).panicked = false :=
  ⟨by decide,
    getAllNodes_replaces_collections demoListingEnv staleState getAllNodesMsg demoListing
      (by decide) (by decide) (by decide) (by decide)⟩

/-! ## `GetAllDevices` -/

/-- C9 (the code at the failing input): two homes, the room listing answers with
one room for the first home and fails for the second, every device listing
answers with one device. `GetAllDevices` returns two rooms and two devices:
the failed home contributes the room left in the shared `Client` by the first
home, and its device once more. When the failing home comes first, one room
and one device are returned. -/
theorem GetAllDevices_failed_home_repeats_previous_rooms :
    (Client.GetAllDevices twoHomesVendor {} "tok").map
        (fun a => (a.allDevices, a.allRooms, a.allHomes))
      = some ([{}, {}], [{}, {}], [{}, {}]) ∧
    (Client.GetAllDevices twoHomesVendorFirstFails {} "tok").map
        (fun a => (a.allDevices, a.allRooms, a.allHomes))
      = some ([{}], [{}], [{}, {}]) := by
  decide

/-! ## `cmd.setpoint.get_report` -/

theorem routeThermostat_getReport_panics_or_publishes (env : Env) (st : RouterState)
    (newMsg : Message) (addr : String)
    (ht : newMsg.Payload.Typ = "cmd.setpoint.get_report") :
    (routeThermostat env st newMsg addr).panicked = true ∨
      ∃ adr msg, Effect.Publish adr msg ∈ (routeThermostat env st newMsg addr).trace := by
  have ht1 : ¬ "cmd.setpoint.get_report" = "cmd.setpoint.set" := by decide
  unfold routeThermostat
  simp only [ht, ht1, if_true, if_false]
  split
  · left; rfl
  · split
    · left; rfl
    · right
      exact ⟨_, _, List.mem_singleton.mpr rfl⟩

theorem getReport_panics_or_publishes (env : Env) (st : RouterState) (serviceAddress : String)
    (payload : FimpMessage) :
    (routeFimpMessage env st
        { ServiceAddress := serviceAddress,
          Payload :=
            { payload with Service := "thermostat", Typ := "cmd.setpoint.get_report" } }).panicked
        = true ∨
      ∃ adr msg, Effect.Publish adr msg ∈
        (routeFimpMessage env st
          { ServiceAddress := serviceAddress,
            Payload :=
              { payload with Service := "thermostat",
                             Typ := "cmd.setpoint.get_report" } }).trace := by
  unfold routeFimpMessage
  simp only [if_true]
  rcases routeThermostat_getReport_panics_or_publishes env
      { st with configs := { st.configs with Auth := (sessionCheck env st.configs.Auth {}).1 } }
      { ServiceAddress := serviceAddress,
        Payload := { payload with Service := "thermostat", Typ := "cmd.setpoint.get_report" } }
      (normalizeAddr "thermostat" serviceAddress) rfl with h | ⟨adr, msg, h⟩
  · left; exact h
  · right
    exact ⟨adr, msg, List.mem_append_right _ h⟩

/-- C10 (the code at the failing input): a thermostat `cmd.setpoint.get_report`
for the address `"l7_0"`, which resolves to no device of the (empty) device
collection: the lookup reports not-found with index 9999, and
`routeFimpMessage` panics on `DeviceCollection[9999]`. -/
theorem getReport_unknown_address_panics :
    normalizeAddr "thermostat" getReportMsg.ServiceAddress = "7" ∧
    demoEnv.FindDeviceFromDeviceID demoState.configs "7" = (9999, true) ∧
    routeFimpMessage demoEnv demoState getReportMsg =
      { state := demoState, trace := [], panicked := true } := by
  decide

/-! ## The service switch -/

theorem routeFimpMessage_adapter (env : Env) (st : RouterState) (newMsg : Message)
    (hservice : newMsg.Payload.Service = env.ServiceName)
    (hname : env.ServiceName ≠ "thermostat" ∧ env.ServiceName ≠ "sensor_temp") :
    routeFimpMessage env st newMsg =
      { routeAdapter env (afterSessionCheck env st) newMsg with
        trace := (sessionCheck env st.configs.Auth {}).2.2 ++
          (routeAdapter env (afterSessionCheck env st) newMsg).trace } := by
  have h1 : ¬ env.ServiceName = "thermostat" := hname.1
  have h2 : ¬ env.ServiceName = "sensor_temp" := hname.2
  unfold routeFimpMessage afterSessionCheck
  simp only [hservice, h1, h2, if_true, if_false]

theorem routeFimpMessage_trace_split (env : Env) (st : RouterState) (newMsg : Message) :
    ∃ tr, (routeFimpMessage env st newMsg).trace = (sessionCheck env st.configs.Auth {}).2.2 ++ tr ∧
      ∀ e ∈ tr, e.isRefreshToken = false := by
  unfold routeFimpMessage
  simp only []
  split
  · exact ⟨_, rfl, routeThermostat_no_refresh _ _ _ _⟩
  · split
    · exact ⟨_, rfl, routeSensorTemp_no_refresh _ _ _ _⟩
    · split
      · exact ⟨_, rfl, routeAdapter_no_refresh _ _ _⟩
      · exact ⟨[], rfl, by simp⟩

/-! ## `cmd.thing.get_inclusion_report` -/

theorem findDeviceFrom_replicate (n i : Nat) :
    findDeviceFrom "x" (List.replicate n ({} : Device) ++ [{ id := "x" }]) i
      = (((i + n : Nat) : Int), false) := by
  induction n generalizing i with
  | zero => simp [findDeviceFrom]
  | succ n ih =>
    have hne : ¬ ({} : Device).id = "x" := by decide
    rw [List.replicate_succ, List.cons_append, findDeviceFrom]
    rw [if_neg hne, ih (i + 1)]
    congr 2
    omega

theorem cmdThingGetInclusionReport_publishes_iff (env : Env) (st : RouterState)
    (newMsg : Message) :
    (∃ adr msg, Effect.Publish adr msg ∈ (cmdThingGetInclusionReport env st newMsg).trace ∧
        msg.Typ = "evt.thing.inclusion_report") ↔
      ((env.FindDeviceFromDeviceID st.configs newMsg.Payload.GetStringValue.1).1 ≠ 9999 ∧
        (env.SendInclusionReport
          (env.FindDeviceFromDeviceID st.configs newMsg.Payload.GetStringValue.1).1
          st.configs.DeviceCollection).isSome) := by
  unfold cmdThingGetInclusionReport
  simp only []
  by_cases h : (env.FindDeviceFromDeviceID st.configs newMsg.Payload.GetStringValue.1).1 = 9999
  · simp [h]
  · simp only [ne_eq, h, not_false_eq_true, if_true, true_and]
    cases hr : env.SendInclusionReport
        (env.FindDeviceFromDeviceID st.configs newMsg.Payload.GetStringValue.1).1
        st.configs.DeviceCollection with
    | none => simp
    | some r =>
      simp only [List.mem_singleton, Effect.Publish.injEq, Option.isSome_some, iff_true]
      exact ⟨_, _, ⟨rfl, rfl⟩, rfl⟩

theorem sessionCheck_trace (env : Env) (auth : Auth) (config : Config) :
    (sessionCheck env auth config).2.2 =
      if auth.ExpireTime ≠ 0 ∧ auth.ExpireTime < env.millis ∧ env.millis < auth.RefreshExpireTime
      then [Effect.RefreshToken auth.RefreshToken] else [] := by
  unfold sessionCheck
  by_cases h0 : auth.ExpireTime = 0
  · simp [h0]
  · by_cases h1 : env.millis > auth.ExpireTime ∧ env.millis < auth.RefreshExpireTime
    · have h2 : auth.ExpireTime < env.millis ∧ env.millis < auth.RefreshExpireTime := h1
      simp [h0, h1, h2]
    · have h2 : ¬ (auth.ExpireTime < env.millis ∧ env.millis < auth.RefreshExpireTime) := h1
      simp [h0, h1, h2]

theorem routeAdapter_inclusion (env : Env) (st : RouterState) (newMsg : Message)
    (htype : newMsg.Payload.Typ = "cmd.thing.get_inclusion_report") :
    routeAdapter env st newMsg = cmdThingGetInclusionReport env st newMsg := by
  unfold routeAdapter
  simp only [htype]
  simp only [(by decide : ¬ "cmd.thing.get_inclusion_report" = "cmd.auth.login"),
    (by decide : ¬ "cmd.thing.get_inclusion_report" = "cmd.network.get_all_nodes"),
    (by decide : ¬ "cmd.thing.get_inclusion_report" = "cmd.app.get_manifest"),
    (by decide : ¬ "cmd.thing.get_inclusion_report" = "cmd.app.get_state"),
    (by decide : ¬ "cmd.thing.get_inclusion_report" = "cmd.config.get_extended_report"),
    (by decide : ¬ "cmd.thing.get_inclusion_report" = "cmd.config.extended_set"),
    (by decide : ¬ "cmd.thing.get_inclusion_report" = "cmd.log.set_level"),
    (by decide : ¬ "cmd.thing.get_inclusion_report" = "cmd.system.reconnect"),
    (by decide : ¬ "cmd.thing.get_inclusion_report" = "cmd.app.factory_reset"),
    if_true, if_false]

theorem demoEnv_FindDeviceFromDeviceID (configs : Configs) (deviceID : String) :
    demoEnv.FindDeviceFromDeviceID configs deviceID
      = findDeviceFrom deviceID configs.DeviceCollection 0 :=
  rfl

theorem afterSessionCheck_DeviceCollection (env : Env) (st : RouterState) :
    (afterSessionCheck env st).configs.DeviceCollection = st.configs.DeviceCollection :=
  rfl

/-- C11 (as stated, refuted): in a collection of 10000 devices the device `"x"`
resolves, at index 9999, and a `cmd.thing.get_inclusion_report` for it
publishes nothing. -/
theorem inclusionReport_none_for_device_at_index_9999 :
    sliceIndex manyDevicesState.configs.DeviceCollection 9999 = some { id := "x" } ∧
    demoEnv.FindDeviceFromDeviceID manyDevicesState.configs "x" = (9999, false) ∧
    (routeFimpMessage demoEnv manyDevicesState (inclusionReportMsg "x")).trace = [] := by
  have hcoll : manyDevicesState.configs.DeviceCollection
      = List.replicate 9999 ({} : Device) ++ [{ id := "x" }] := rfl
  have hcoll1 : (afterSessionCheck demoEnv manyDevicesState).configs.DeviceCollection
      = manyDevicesState.configs.DeviceCollection :=
    afterSessionCheck_DeviceCollection demoEnv manyDevicesState
  have hnum : (((0 + 9999 : Nat) : Int), false) = ((9999 : Int), false) := by decide
  have hfind : findDeviceFrom "x" manyDevicesState.configs.DeviceCollection 0 = (9999, false) := by
    rw [hcoll, findDeviceFrom_replicate, hnum]
  have hfind0 : demoEnv.FindDeviceFromDeviceID manyDevicesState.configs "x"
      = findDeviceFrom "x" manyDevicesState.configs.DeviceCollection 0 :=
    demoEnv_FindDeviceFromDeviceID manyDevicesState.configs "x"
  have hid : (inclusionReportMsg "x").Payload.GetStringValue.1 = "x" := rfl
  have hfind1 : demoEnv.FindDeviceFromDeviceID (afterSessionCheck demoEnv manyDevicesState).configs
      (inclusionReportMsg "x").Payload.GetStringValue.1
      = findDeviceFrom "x" (afterSessionCheck demoEnv manyDevicesState).configs.DeviceCollection 0 := by
    rw [hid]
    exact demoEnv_FindDeviceFromDeviceID _ "x"
  refine ⟨?_, hfind0.trans hfind, ?_⟩
  · unfold sliceIndex
    have h : (9999 : Int).toNat = 9999 := rfl
    rw [if_pos (by decide), h, hcoll,
      List.getElem?_append_right (by rw [List.length_replicate])]
    rw [List.length_replicate]
    rfl
  · rw [routeFimpMessage_adapter demoEnv manyDevicesState (inclusionReportMsg "x") rfl
      (by decide)]
    have hs : (sessionCheck demoEnv manyDevicesState.configs.Auth {}).2.2 = [] := by decide
    rw [routeAdapter_inclusion _ _ _ rfl]
    show (sessionCheck demoEnv manyDevicesState.configs.Auth {}).2.2 ++
      (cmdThingGetInclusionReport demoEnv (afterSessionCheck demoEnv manyDevicesState)
        (inclusionReportMsg "x")).trace = []
    rw [hs, List.nil_append]
    unfold cmdThingGetInclusionReport
    simp only [hfind1, hcoll1, hfind, ne_eq, not_true_eq_false, if_false]

/-- C11 (amended): a `cmd.thing.get_inclusion_report` publishes an
`evt.thing.inclusion_report` if and only if the index the lookup returns is not
9999, the index that stands for "not found" (and building the report does not
panic): a device resolved at index 9999 gets no report. -/
theorem inclusionReport_iff_index_not_9999 (env : Env) (st : RouterState) (newMsg : Message)
    (hservice : newMsg.Payload.Service = env.ServiceName)
    (hname : env.ServiceName ≠ "thermostat" ∧ env.ServiceName ≠ "sensor_temp")
    (htype : newMsg.Payload.Typ = "cmd.thing.get_inclusion_report") :
    (∃ adr msg, Effect.Publish adr msg ∈ (routeFimpMessage env st newMsg).trace ∧
        msg.Typ = "evt.thing.inclusion_report") ↔
      ((env.FindDeviceFromDeviceID (afterSessionCheck env st).configs
          newMsg.Payload.GetStringValue.1).1 ≠ 9999 ∧
        (env.SendInclusionReport
          (env.FindDeviceFromDeviceID (afterSessionCheck env st).configs
            newMsg.Payload.GetStringValue.1).1
          (afterSessionCheck env st).configs.DeviceCollection).isSome) := by
  rw [← cmdThingGetInclusionReport_publishes_iff, routeFimpMessage_adapter env st newMsg hservice hname,
    routeAdapter_inclusion _ _ _ htype]
  have hsc : ∀ adr msg, Effect.Publish adr msg ∉ (sessionCheck env st.configs.Auth {}).2.2 := by
    intro adr msg
    rw [sessionCheck_trace]
    split <;> simp
  constructor
  · rintro ⟨adr, msg, hmem, htyp⟩
    refine ⟨adr, msg, ?_, htyp⟩
    rcases List.mem_append.mp hmem with h | h
    · exact absurd h (hsc adr msg)
    · exact h
  · rintro ⟨adr, msg, hmem, htyp⟩
    exact ⟨adr, msg, List.mem_append_right _ hmem, htyp⟩

/-- C11 (amended), at a request for the device `"old"`, which `staleState` holds
at index 0: a report is published. -/
theorem inclusionReport_iff_index_not_9999_witness :
    (inclusionReportMsg "old").Payload.Service = demoEnv.ServiceName ∧
    (demoEnv.ServiceName ≠ "thermostat" ∧ demoEnv.ServiceName ≠ "sensor_temp") ∧
    (inclusionReportMsg "old").Payload.Typ = "cmd.thing.get_inclusion_report" ∧
    demoEnv.FindDeviceFromDeviceID (afterSessionCheck demoEnv staleState).configs "old"
      = (0, false) ∧
    ∃ adr msg,
      Effect.Publish adr msg ∈ (routeFimpMessage demoEnv staleState (inclusionReportMsg "old")).trace ∧
      msg.Typ = "evt.thing.inclusion_report" :=
  ⟨by decide, by decide, by decide, by decide,
    (inclusionReport_iff_index_not_9999 demoEnv staleState (inclusionReportMsg "old")
      (by decide) (by decide) (by decide)).mpr ⟨by decide, by decide⟩⟩

/-! ## `cmd.app.factory_reset` -/

theorem routeAdapter_factoryReset (env : Env) (st : RouterState) (newMsg : Message)
    (htype : newMsg.Payload.Typ = "cmd.app.factory_reset") :
    routeAdapter env st newMsg = cmdAppFactoryReset env st newMsg (adapterAdr env) := by
  unfold routeAdapter adapterAdr
  simp only [htype]
  simp only [(by decide : ¬ "cmd.app.factory_reset" = "cmd.auth.login"),
    (by decide : ¬ "cmd.app.factory_reset" = "cmd.network.get_all_nodes"),
    (by decide : ¬ "cmd.app.factory_reset" = "cmd.app.get_manifest"),
    (by decide : ¬ "cmd.app.factory_reset" = "cmd.app.get_state"),
    (by decide : ¬ "cmd.app.factory_reset" = "cmd.config.get_extended_report"),
    (by decide : ¬ "cmd.app.factory_reset" = "cmd.config.extended_set"),
    (by decide : ¬ "cmd.app.factory_reset" = "cmd.log.set_level"),
    (by decide : ¬ "cmd.app.factory_reset" = "cmd.system.reconnect"),
    if_true, if_false]

/-- C12 (as stated, refuted): after `cmd.app.factory_reset` on the authenticated
session of `demoState`, every session field is as it was; none is empty or
zero. -/
theorem factoryReset_keeps_session :
    (routeFimpMessage demoEnv demoState factoryResetMsg).state.configs.Auth =
      { AuthorizationCode := "code", AccessToken := "tok", RefreshToken := "ref",
        ExpireTime := 1000, RefreshExpireTime := 5000 } := by
  decide

/-- C12 (amended): after `cmd.app.factory_reset` the three lifecycle states are
the not-configured, not-configured and not-authenticated ones, an
`evt.app.config_action_report` with operation status `"ok"` is sent (as a
reply, or published when the reply fails), and the configuration, with the
session in it, is as the session check left it: no session field is cleared. -/
theorem factoryReset_resets_lifecycle_only (env : Env) (st : RouterState) (newMsg : Message)
    (hservice : newMsg.Payload.Service = env.ServiceName)
    (hname : env.ServiceName ≠ "thermostat" ∧ env.ServiceName ≠ "sensor_temp")
    (htype : newMsg.Payload.Typ = "cmd.app.factory_reset") :
    (routeFimpMessage env st newMsg).state.configs.Auth
        = (sessionCheck env st.configs.Auth {}).1 ∧
    (routeFimpMessage env st newMsg).state.configs = (afterSessionCheck env st).configs ∧
    (routeFimpMessage env st newMsg).state.appLifecycle =
      { ConfigState := env.ConfigStateNotConfigured, AppState := env.AppStateNotConfigured,
        AuthState := env.AuthStateNotAuthenticated } ∧
    (routeFimpMessage env st newMsg).trace =
      (sessionCheck env st.configs.Auth {}).2.2 ++
        respondOrPublish env newMsg.Payload (adapterAdr env)
          { Typ := "evt.app.config_action_report", Service := env.ServiceName,
            ValueType := VType.VTypeObject,
            Value := OutValue.buttonAction
              { Operation := "cmd.app.factory_reset", OperationStatus := "ok",
                Next := "config", ErrorCode := "", ErrorText := "" },
            requestMessage := some newMsg.Payload } := by
  rw [routeFimpMessage_adapter env st newMsg hservice hname, routeAdapter_factoryReset _ _ _ htype]
  exact ⟨rfl, rfl, rfl, rfl⟩

/-- C12 (amended), at the authenticated session of `demoState`. -/
theorem factoryReset_resets_lifecycle_only_witness :
    factoryResetMsg.Payload.Service = demoEnv.ServiceName ∧
    factoryResetMsg.Payload.Typ = "cmd.app.factory_reset" ∧
    (routeFimpMessage demoEnv demoState factoryResetMsg).state.configs.Auth
        = (sessionCheck demoEnv demoState.configs.Auth {}).1 ∧
    (sessionCheck demoEnv demoState.configs.Auth {}).1 = demoState.configs.Auth :=
  ⟨by decide, by decide,
    (factoryReset_resets_lifecycle_only demoEnv demoState factoryResetMsg (by decide)
      (by decide) (by decide)).1,
    by decide⟩

/-! ## The publish policy -/

theorem respondOrPublish_policy (env : Env) (requestMsg : FimpMessage) (adr : Address)
    (msg : OutMessage) :
    replyFirstElseBroadcast requestMsg adr
      ((respondOrPublish env requestMsg adr msg).filter Effect.isBus) = true := by
  unfold respondOrPublish
  split <;> simp [Effect.isBus, replyFirstElseBroadcast]

theorem filter_isBus_cons (e : Effect) (tr : List Effect) (he : e.isBus = false) :
    (e :: tr).filter Effect.isBus = tr.filter Effect.isBus := by
  simp [List.filter, he]

theorem sessionCheck_no_bus (env : Env) (auth : Auth) (config : Config) :
    (sessionCheck env auth config).2.2.filter Effect.isBus = [] := by
  rw [sessionCheck_trace]
  split <;> simp [Effect.isBus]

theorem routeAdapter_policy (env : Env) (st : RouterState) (newMsg : Message)
    (htype : newMsg.Payload.Typ ≠ "cmd.thing.get_inclusion_report") :
    replyFirstElseBroadcast newMsg.Payload (adapterAdr env)
      ((routeAdapter env st newMsg).trace.filter Effect.isBus) = true := by
  have hp := respondOrPublish_policy env newMsg.Payload (adapterAdr env)
  unfold adapterAdr at hp ⊢
  unfold routeAdapter
  simp only []
  split
  · unfold cmdAuthLogin
    simp only []
    split
    · rw [List.singleton_append, filter_isBus_cons]
      · exact hp _
      · rfl
    · rw [List.nil_append]
      exact hp _
  split
  · unfold cmdNetworkGetAllNodes
    simp only []
    split
    · rfl
    · rw [filter_isBus_cons]
      · exact hp _
      · rfl
  split
  · unfold cmdAppGetManifest
    simp only []
    split
    · rfl
    · split
      · rfl
      · exact hp _
  split
  · exact hp _
  split
  · exact hp _
  split
  · unfold cmdConfigExtendedSet
    simp only []
    split
    · rw [filter_isBus_cons]
      · exact hp _
      · rfl
    · rfl
  split
  · unfold cmdLogSetLevel
    simp only []
    split
    · rfl
    · split
      · rfl
      · rfl
  split
  · unfold cmdSystemReconnect
    simp only []
    rw [filter_isBus_cons]
    · exact hp _
    · rfl
  split
  · unfold cmdAppFactoryReset
    exact hp _
  rfl

theorem routeThermostat_no_reply (env : Env) (st : RouterState) (newMsg : Message)
    (addr : String) :
    ∀ e ∈ (routeThermostat env st newMsg addr).trace, e.isRespondToRequest = false := by
  intro e he
  unfold routeThermostat at he
  simp only [] at he
  split at he
  · simp at he
  · split at he
    · split at he
      · simp at he
      · split at he
        · simp at he
        · simp at he; subst he; rfl
    · split at he
      · simp at he
      · split at he
        · simp at he; subst he; rfl
        · simp at he

theorem routeSensorTemp_no_reply (env : Env) (st : RouterState) (newMsg : Message)
    (addr : String) :
    ∀ e ∈ (routeSensorTemp env st newMsg addr).trace, e.isRespondToRequest = false := by
  intro e he
  unfold routeSensorTemp at he
  simp only [] at he
  split at he
  · split at he
    · simp at he
    · split at he
      · simp at he
      · simp at he; subst he; rfl
  · simp at he

theorem cmdThingGetInclusionReport_no_reply (env : Env) (st : RouterState) (newMsg : Message) :
    ∀ e ∈ (cmdThingGetInclusionReport env st newMsg).trace, e.isRespondToRequest = false := by
  intro e he
  unfold cmdThingGetInclusionReport at he
  simp only [] at he
  split at he
  · split at he
    · simp at he
    · simp at he; subst he; rfl
  · simp at he

theorem sessionCheck_no_reply (env : Env) (auth : Auth) (config : Config) :
    ∀ e ∈ (sessionCheck env auth config).2.2, e.isRespondToRequest = false := by
  intro e he
  rw [sessionCheck_trace] at he
  split at he
  · simp at he; subst he; rfl
  · simp at he

theorem setpointSet_no_reply (env : Env) (st : RouterState) (oldMsg : Message)
    (config : Config) :
    ∀ e ∈ setpointSet env st oldMsg config, e.isRespondToRequest = false := by
  intro e he
  unfold setpointSet at he
  simp only [] at he
  split at he
  · simp at he
  · split at he
    · simp at he; subst he; rfl
    · simp at he
      rcases he with he | he <;> subst he <;> rfl

/-- C13 (the code at the failing input): a `cmd.setpoint.set` and a thermostat
`cmd.mode.get_report` that both name the response topic `"rsp"`, on a bus where
a reply to that topic succeeds. `setpointSet` and `routeFimpMessage` send their
report with a `Publish` to the device event address, and no `RespondToRequest`
is attempted. -/
theorem device_reports_published_without_reply :
    (setpointReplyMsg "21.3").Payload.ResponseToTopic = "rsp" ∧
    setpointSet demoEnv demoState (setpointReplyMsg "21.3") {} =
      [Effect.TempControl "tok" "7" "22",
        Effect.Publish
          { ResourceType := ResourceType.ResourceTypeDevice, ResourceName := "lvi",
            ResourceAddress := "1", ServiceName := "thermostat", ServiceAddress := "7" }
          { Typ := "evt.setpoint.report", Service := "thermostat",
            ValueType := VType.VTypeStrMap, Value := OutValue.strMap [("temp", "21.3")],
            requestMessage := some (setpointReplyMsg "21.3").Payload }] ∧
    demoEnv.RespondToRequest (setpointReplyMsg "21.3").Payload
      { Typ := "evt.setpoint.report", Service := "thermostat",
        ValueType := VType.VTypeStrMap, Value := OutValue.strMap [("temp", "21.3")],
        requestMessage := some (setpointReplyMsg "21.3").Payload } = true ∧
    modeGetReportMsg.Payload.ResponseToTopic = "rsp" ∧
    (routeFimpMessage demoEnv demoState modeGetReportMsg).trace =
      [Effect.Publish
        { ResourceType := ResourceType.ResourceTypeDevice, ResourceName := "lvi",
          ResourceAddress := "1", ServiceName := "thermostat", ServiceAddress := "7" }
        { Typ := "evt.mode.report", Service := "thermostat", ValueType := VType.VTypeString,
          Value := OutValue.string "heat", requestMessage := some modeGetReportMsg.Payload }] := by
  decide

/-- The publish policy of the handlers. Those of the adapter service,
`cmd.thing.get_inclusion_report` apart, follow reply-first-else-broadcast: the
bus effects of a run are nothing, or one `RespondToRequest` that succeeded, or
one that failed followed by the `Publish` of the same message to the default
event address. The `thermostat` and `sensor_temp` handlers,
`cmd.thing.get_inclusion_report` and `setpointSet` never call
`RespondToRequest`. -/
theorem publish_policy (env : Env) (st : RouterState) (newMsg : Message)
    (hname : env.ServiceName ≠ "thermostat" ∧ env.ServiceName ≠ "sensor_temp") :
    (newMsg.Payload.Service = env.ServiceName →
      newMsg.Payload.Typ ≠ "cmd.thing.get_inclusion_report" →
      replyFirstElseBroadcast newMsg.Payload (adapterAdr env)
        ((routeFimpMessage env st newMsg).trace.filter Effect.isBus) = true) ∧
    ((newMsg.Payload.Service = "thermostat" ∨ newMsg.Payload.Service = "sensor_temp" ∨
        newMsg.Payload.Typ = "cmd.thing.get_inclusion_report") →
      ∀ e ∈ (routeFimpMessage env st newMsg).trace, e.isRespondToRequest = false) ∧
    (∀ config, ∀ e ∈ setpointSet env st newMsg config, e.isRespondToRequest = false) := by
  refine ⟨?_, ?_, fun config => setpointSet_no_reply env st newMsg config⟩
  · intro hservice htype
    rw [routeFimpMessage_adapter env st newMsg hservice hname]
    show replyFirstElseBroadcast newMsg.Payload (adapterAdr env)
      (((sessionCheck env st.configs.Auth {}).2.2 ++
        (routeAdapter env (afterSessionCheck env st) newMsg).trace).filter Effect.isBus) = true
    rw [List.filter_append, sessionCheck_no_bus, List.nil_append]
    exact routeAdapter_policy env _ newMsg htype
  · intro hcase e he
    unfold routeFimpMessage at he
    simp only [] at he
    rcases List.mem_append.mp he with h | h
    · exact sessionCheck_no_reply _ _ _ e h
    · split at h
      · exact routeThermostat_no_reply _ _ _ _ e h
      · split at h
        · exact routeSensorTemp_no_reply _ _ _ _ e h
        · split at h
          · rename_i h1 h2 h3
            rcases hcase with hc | hc | hc
            · exact absurd hc h1
            · exact absurd hc h2
            · rw [routeAdapter_inclusion _ _ _ hc] at h
              exact cmdThingGetInclusionReport_no_reply _ _ _ e h
          · simp at h

/-- The publish policy at a `cmd.auth.login` request, which is replied to, and at
a thermostat `cmd.mode.get_report`, which is not. -/
theorem publish_policy_witness :
    (demoEnv.ServiceName ≠ "thermostat" ∧ demoEnv.ServiceName ≠ "sensor_temp") ∧
    replyFirstElseBroadcast (loginMsg "" "pw" "key" "sec").Payload (adapterAdr demoEnv)
      ((routeFimpMessage demoEnv demoState (loginMsg "" "pw" "key" "sec")).trace.filter
        Effect.isBus) = true ∧
    ∀ e ∈ (routeFimpMessage demoEnv demoState modeGetReportMsg).trace,
      e.isRespondToRequest = false :=
  ⟨by decide,
    (publish_policy demoEnv demoState (loginMsg "" "pw" "key" "sec") (by decide)).1
      (by decide) (by decide),
    (publish_policy demoEnv demoState modeGetReportMsg (by decide)).2.1 (Or.inl (by decide))⟩

/-! ## `TempControl` -/

theorem TempControl_nil_on_bad_status (v : Vendor) (cf : Config)
    (accessToken deviceId newTemp : String) (status : Int) (decode : Config → Config × Bool)
    (hreq : ∀ url, v.newRequestFails url = false)
    (hresp : v.deviceControl accessToken deviceId newTemp = HttpResult.response status decode)
    (hstatus : status ≠ 200) (hcode : cf.ErrorCode = 0) :
    Config.TempControl v cf accessToken deviceId newTemp = (cf, none, true) := by
  unfold Config.TempControl
  simp [hreq, hresp, processHTTPResponse, hstatus, doError, hcode]

theorem TempControl_error_on_errorCode (v : Vendor) (cf : Config)
    (accessToken deviceId newTemp : String) (decode : Config → Config × Bool)
    (hreq : ∀ url, v.newRequestFails url = false)
    (hresp : v.deviceControl accessToken deviceId newTemp = HttpResult.response 200 decode)
    (hcode : (decode cf).1.ErrorCode ≠ 0) :
    (Config.TempControl v cf accessToken deviceId newTemp).2.1
      = some (ApiError.errorCode (decode cf).1.ErrorCode) := by
  unfold Config.TempControl
  simp only [hreq, hresp, processHTTPResponse, doError]
  cases hd : decode cf with
  | mk c ok =>
    rw [hd] at hcode
    cases ok <;> simp [hcode]

/-- C14 (the code at the failing input): the device-control round trip answers
with status 500. `TempControl` returns no error, and `setpointSet` publishes the
`evt.setpoint.report`. With status 200 and `errorCode` 3 `TempControl` returns
an error and nothing is published. -/
theorem TempControl_accepts_status_500 :
    (Config.TempControl (deviceControlEnv (HttpResult.response 500 (fun c => (c, true)))).vendor
        {} "tok" "7" "22").2.1 = none ∧
    setpointSet (deviceControlEnv (HttpResult.response 500 (fun c => (c, true)))) demoState
        (setpointMsg "21.3") {} =
      [Effect.TempControl "tok" "7" "22",
        Effect.Publish
          { ResourceType := ResourceType.ResourceTypeDevice, ResourceName := "lvi",
            ResourceAddress := "1", ServiceName := "thermostat", ServiceAddress := "7" }
          { Typ := "evt.setpoint.report", Service := "thermostat",
            ValueType := VType.VTypeStrMap, Value := OutValue.strMap [("temp", "21.3")],
            requestMessage := some (setpointMsg "21.3").Payload }] ∧
    setpointSet
        (deviceControlEnv (HttpResult.response 200 (fun c => ({ c with ErrorCode := 3 }, true))))
        demoState (setpointMsg "21.3") {} =
      [Effect.TempControl "tok" "7" "22"] := by
  decide

/-! ## When the session check refreshes -/

/-- C15 (as stated, refuted): at `now = expireAt` (1000, with `refreshExpireAt`
5000) the session check makes no refresh call; one millisecond later it makes
one. -/
theorem sessionCheck_no_refresh_at_expireAt :
    demoState.configs.Auth.ExpireTime = 1000 ∧
    demoState.configs.Auth.RefreshExpireTime = 5000 ∧
    (sessionCheck (envAt 1000) demoState.configs.Auth {}).2.2 = [] ∧
    (routeFimpMessage (envAt 1000) demoState getAllNodesMsg).trace.filter Effect.isRefreshToken
      = [] ∧
    (sessionCheck (envAt 1001) demoState.configs.Auth {}).2.2 = [Effect.RefreshToken "ref"] := by
  decide

/-- C15 (amended): for a session with `expireAt ≠ 0`, a run of `routeFimpMessage`
makes exactly one refresh call when `expireAt < now < refreshExpireAt`, and
none otherwise: none at `now = expireAt`, none when `now ≥ refreshExpireAt`. -/
theorem refresh_iff_strictly_between (env : Env) (st : RouterState) (newMsg : Message)
    (hne : st.configs.Auth.ExpireTime ≠ 0) :
    (routeFimpMessage env st newMsg).trace.filter Effect.isRefreshToken =
      if st.configs.Auth.ExpireTime < env.millis ∧
          env.millis < st.configs.Auth.RefreshExpireTime then
        [Effect.RefreshToken st.configs.Auth.RefreshToken]
      else [] := by
  obtain ⟨tr, htr, hno⟩ := routeFimpMessage_trace_split env st newMsg
  have hfilter : tr.filter Effect.isRefreshToken = [] := by
    rw [List.filter_eq_nil_iff]
    intro e he
    rw [hno e he]
    decide
  rw [htr, List.filter_append, hfilter, List.append_nil, sessionCheck_trace]
  by_cases hc : st.configs.Auth.ExpireTime < env.millis ∧
      env.millis < st.configs.Auth.RefreshExpireTime
  · simp [hne, hc, Effect.isRefreshToken]
  · simp [hne, hc]

/-- C15 (amended), at the session of `demoState` (`expireAt` 1000,
`refreshExpireAt` 5000) with the clock at 2000, at 1000 and at 5000. -/
theorem refresh_iff_strictly_between_witness :
    demoState.configs.Auth.ExpireTime ≠ 0 ∧
    (routeFimpMessage (envAt 2000) demoState getAllNodesMsg).trace.filter Effect.isRefreshToken
      = [Effect.RefreshToken "ref"] ∧
    (routeFimpMessage (envAt 1000) demoState getAllNodesMsg).trace.filter Effect.isRefreshToken
      = [] ∧
    (routeFimpMessage (envAt 5000) demoState getAllNodesMsg).trace.filter Effect.isRefreshToken
      = [] :=
  ⟨by decide,
    (refresh_iff_strictly_between (envAt 2000) demoState getAllNodesMsg (by decide)).trans
      (by decide),
    (refresh_iff_strictly_between (envAt 1000) demoState getAllNodesMsg (by decide)).trans
      (by decide),
    (refresh_iff_strictly_between (envAt 5000) demoState getAllNodesMsg (by decide)).trans
      (by decide)⟩

end LviAdapter
